import Mathlib

/-!
# FarmTech ESP32 soil controller: embedding of `src/main.cpp`

Shallow embedding of the controller loop of `src/main.cpp`.

Modelling conventions
* `unsigned long` is the 32-bit unsigned integer of the ESP32: a `Nat` below `2^32`, with
  subtraction taken modulo `2^32` (`subU32`).
* `float` values that reach the decision are finite: `umidade_solo` is only ever assigned a
  reading that passed the `!isnan` test (line 247) or an integer drawn by the simulator, and
  `ph_valor` is a clamped value.  Finite floats are rationals and the order comparisons of
  the source are exact on them, so such values are modelled in `ℚ`.  The thresholds
  30.0, 70.0, 6.0 and 7.5 are exactly representable in binary32.
* the humidity driver's result is `Option ℚ`, `none` standing for the NaN sentinel.
* `sin` and `random` are parameters of the model.
* `simularPH` is embedded twice: in exact arithmetic (`simularPH`, the value stored by
  `loop`), and with every `float` operation of lines 100-107 rounded to binary32
  (`simularPH_binary32`, round to nearest, ties to even).
* digital levels are `Bool` (`true` = HIGH).
-/

namespace FarmTech

/-! ## Constants (lines 33-36, 50-57) -/

/-- Line 33: minimum moisture, below which irrigation may start. -/
def LIMITE_UMIDADE_MIN : ℚ := 30

/-- Line 34: maximum moisture, above which irrigation stops. -/
def LIMITE_UMIDADE_MAX : ℚ := 70

/-- Line 35: lowest acceptable pH. -/
def LIMITE_PH_MIN : ℚ := 6

/-- Line 36: highest acceptable pH (7.5). -/
def LIMITE_PH_MAX : ℚ := 15 / 2

/-- Line 50: base pH of the simulated wave. -/
def ph_base : ℚ := 7

/-- Line 51: amplitude of the simulated wave (3.5). -/
def ph_amplitude : ℚ := 7 / 2

/-- Line 52: frequency of the simulated wave (0.001). -/
def ph_frequencia : ℚ := 1 / 1000

/-- Line 57: sampling interval in milliseconds. -/
def INTERVALO_LEITURA : Nat := 5000

/-! ## Machine arithmetic -/

/-- Modulus of the 32-bit `unsigned long`. -/
def U32 : Nat := 2 ^ 32

/-- Subtraction of two `unsigned long` values, wrapping modulo `2^32`. -/
def subU32 (a b : Nat) : Nat := (a % U32 + U32 - b % U32) % U32

/-! ## Program state -/

/-- One CSV line printed on the serial port (lines 259-269).  The three flags are printed as
the strings `"1"` / `"0"`; the two measurements are kept as values. -/
structure Registro where
  timestamp : Nat
  fosforo : String
  potassio : String
  ph : ℚ
  umidade : ℚ
  irrigacao : String
  deriving DecidableEq, Repr

/-- Globals of `main.cpp` (lines 39-56), the two function statics of
`simularUmidadeTeste` (lines 190-191), the two output pins, and the serial log. -/
structure Estado where
  irrigacaoAtiva : Bool
  fosforo_presente : Bool
  potassio_presente : Bool
  ph_valor : ℚ
  umidade_solo : ℚ
  fosforo_anterior : Bool
  potassio_anterior : Bool
  inicio_simulacao : Nat
  ultimaLeitura : Nat
  ultimaMudanca : Nat
  umidadeBaixa : Bool
  pinRele : Bool
  pinLedBomba : Bool
  serial : List Registro
  deriving DecidableEq, Repr

/-- Static initialisers of the globals and function statics (lines 39-56, 190-191); both
output pins are low and nothing has been printed. -/
def estadoInicial : Estado where
  irrigacaoAtiva := false
  fosforo_presente := false
  potassio_presente := false
  ph_valor := 7
  umidade_solo := 50
  fosforo_anterior := false
  potassio_anterior := false
  inicio_simulacao := 0
  ultimaLeitura := 0
  ultimaMudanca := 0
  umidadeBaixa := false
  pinRele := false
  pinLedBomba := false
  serial := []

/-! ## `atualizarIrrigacao` (lines 111-185) -/

/-- Lines 131-168: the value of `irrigacaoAtiva` after the decision, as a function of
`umidade_solo`, `ph_valor` and the previous value of `irrigacaoAtiva`. -/
def decidirIrrigacao (umidade_solo ph_valor : ℚ) (irrigacaoAtiva : Bool) : Bool :=
  let umidade_baixa : Bool := decide (umidade_solo < LIMITE_UMIDADE_MIN)
  let ph_adequado : Bool :=
    decide (ph_valor ≥ LIMITE_PH_MIN) && decide (ph_valor ≤ LIMITE_PH_MAX)
  if umidade_baixa && ph_adequado then
    true
  else if decide (umidade_solo > LIMITE_UMIDADE_MAX) || !ph_adequado then
    false
  else
    irrigacaoAtiva

/-- Lines 111-185: the decision, followed by the two `digitalWrite` calls (lines 171-172)
that copy `irrigacaoAtiva` to the relay and to the LED. -/
def atualizarIrrigacao (s : Estado) : Estado :=
  let irrigacaoAtiva := decidirIrrigacao s.umidade_solo s.ph_valor s.irrigacaoAtiva
  { s with
    irrigacaoAtiva := irrigacaoAtiva
    pinRele := if irrigacaoAtiva then true else false
    pinLedBomba := if irrigacaoAtiva then true else false }

/-! ## `setup` (lines 59-91) -/

/-- Value returned by `millis()` when the time source has counted `t` milliseconds: the count
truncated to the 32-bit `unsigned long`. -/
def millis (t : Nat) : Nat := t % U32

/-- Lines 59-91.  The output self-test drives both pins high (lines 73-74) and then low (lines
76-77); line 84 stores `millis()` in `inicio_simulacao`.  The parameter `t` is the time
source's count at line 84.  The banner and header lines are text only and are not part of
the report log. -/
def setup (s : Estado) (t : Nat) : Estado :=
  let s := { s with pinRele := true }
  let s := { s with pinLedBomba := true }
  let s := { s with pinRele := false }
  let s := { s with pinLedBomba := false }
  { s with inicio_simulacao := millis t }

/-! ## `simularPH` (lines 94-108) -/

/-- Arduino core's `constrain(amt, low, high)`:
`(amt) < (low) ? (low) : ((amt) > (high) ? (high) : (amt))`. -/
def constrain (amt low high : ℚ) : ℚ :=
  if amt < low then low else if amt > high then high else amt

/-- Arduino core's `round(x)`: `(x) >= 0 ? (long)((x) + 0.5) : (long)((x) - 0.5)`, the cast
to `long` truncating towards zero. -/
def arduinoRound (x : ℚ) : ℤ :=
  if x ≥ 0 then ⌊x + 1 / 2⌋ else ⌈x - 1 / 2⌉

/-- Lines 94-108 in exact arithmetic (no rounding of the `float` operations), with `sin` the
parameter `seno`.  `t` is the time source's count at line 95.  The same lines with every
`float` operation rounded to binary32 are `simularPH_binary32`. -/
def simularPH (seno : ℚ → ℚ) (s : Estado) (t : Nat) : ℚ :=
  let tempo_atual := millis t
  let tempo_decorrido := subU32 tempo_atual s.inicio_simulacao
  let angulo := (tempo_decorrido : ℚ) * ph_frequencia
  let ph_simulado := ph_base + ph_amplitude * seno angulo
  let ph_simulado := constrain ph_simulado 0 14
  (arduinoRound (ph_simulado * 100) : ℚ) / 100

/-! ## Binary floating point (IEEE 754, round to nearest, ties to even) -/

/-- Nearest integer to `m`, a tie going to the even neighbour. -/
def inteiroProximoPar (m : ℚ) : ℤ :=
  let n : ℤ := ⌊m⌋
  if m - n < 1 / 2 then n
  else if 1 / 2 < m - n then n + 1
  else if n % 2 = 0 then n else n + 1

/-- Unit in the last place of a significand of `p` bits at the binade of `x ≠ 0`. -/
def ulpBin (p : ℕ) (x : ℚ) : ℚ := 2 ^ (Int.log 2 |x| - ((p : ℤ) - 1))

/-- Rounding of `x` to the nearest value with a significand of `p` bits, ties to even.  The
exponent range is taken unbounded: the values of lines 100-107 are far from overflow, and an
underflow can only occur in a product that line 101 then adds to 7.0. -/
def arredondarBin (p : ℕ) (x : ℚ) : ℚ :=
  if x = 0 then 0
  else if 0 < x then inteiroProximoPar (|x| / ulpBin p x) * ulpBin p x
  else -(inteiroProximoPar (|x| / ulpBin p x) * ulpBin p x)

/-- Rounding to binary32, the `float` of the ESP32 (24-bit significand). -/
def f32 (x : ℚ) : ℚ := arredondarBin 24 x

/-- Rounding to binary64, the `double` of the ESP32 (53-bit significand). -/
def f64 (x : ℚ) : ℚ := arredondarBin 53 x

/-- Lines 94-108 as the program computes them, with `sin` the parameter `seno` (the `float`
returned by `sin` for the `float` angle).  Line 100: the `unsigned long` is converted to
`float` and multiplied by the `float` `ph_frequencia`.  Line 101: `float` product and sum
(`ph_base` and `ph_amplitude`, 7.0 and 3.5, are binary32 values).  Line 104: the clamp picks
one of three binary32 values.  Line 107: `float` product by 100, `round` to a `long`,
division by the `double` 100.0, and conversion of the `double` quotient to the `float`
returned. -/
def simularPH_binary32 (seno : ℚ → ℚ) (s : Estado) (t : Nat) : ℚ :=
  let tempo_atual := millis t
  let tempo_decorrido := subU32 tempo_atual s.inicio_simulacao
  let angulo := f32 (f32 (tempo_decorrido : ℚ) * f32 ph_frequencia)
  let ph_simulado := f32 (ph_base + f32 (ph_amplitude * seno angulo))
  let ph_simulado := constrain ph_simulado 0 14
  f32 (f64 ((arduinoRound (f32 (ph_simulado * 100)) : ℚ) / 100))

/-! ## `simularUmidadeTeste` (lines 188-203) -/

/-- Lines 188-203.  `random` is the Arduino `random(min, max)` call, `t` the time source's
count at line 193.  Returns the state with the two statics updated, and the value returned
(a `long` converted to `float`). -/
def simularUmidadeTeste (random : ℤ → ℤ → ℤ) (s : Estado) (t : Nat) : Estado × ℚ :=
  let agora := millis t
  let s :=
    if subU32 agora s.ultimaMudanca > 25000 then
      { s with ultimaMudanca := agora, umidadeBaixa := !s.umidadeBaixa }
    else s
  (s, ((if s.umidadeBaixa then random 15 29 else random 71 85 : ℤ) : ℚ))

/-! ## `loop` (lines 205-288) -/

/-- What one iteration of `loop` reads from its environment. -/
structure Entrada where
  /-- Line 207: `digitalRead(PIN_FOSFORO_BTN)`. -/
  nivelFosforo : Bool
  /-- Line 208: `digitalRead(PIN_POTASSIO_BTN)`. -/
  nivelPotassio : Bool
  /-- Line 227: time source's count at the `millis()` call of `loop`. -/
  tempoLoop : Nat
  /-- Line 95: time source's count at the `millis()` call of `simularPH`. -/
  tempoPH : Nat
  /-- Line 193: time source's count at the `millis()` call of `simularUmidadeTeste`. -/
  tempoUmidade : Nat
  /-- Line 244: `dht.readHumidity()`; `none` is NaN. -/
  umidade_ar : Option ℚ
  /-- Line 202: the `random(min, max)` function at this iteration. -/
  random : ℤ → ℤ → ℤ

/-- Lines 207 and 211-217: phosphorus button, given the raw level read. -/
def botaoFosforo (s : Estado) (nivel : Bool) : Estado :=
  let fosforo_atual := !nivel
  if fosforo_atual != s.fosforo_anterior then
    { s with fosforo_anterior := fosforo_atual, fosforo_presente := fosforo_atual }
  else s

/-- Lines 208 and 219-225: potassium button, given the raw level read. -/
def botaoPotassio (s : Estado) (nivel : Bool) : Estado :=
  let potassio_atual := !nivel
  if potassio_atual != s.potassio_anterior then
    { s with potassio_anterior := potassio_atual, potassio_presente := potassio_atual }
  else s

/-- Line 230: the interval gate `tempoAtual - ultimaLeitura >= INTERVALO_LEITURA`. -/
def intervaloDecorrido (tempoAtual ultimaLeitura : Nat) : Bool :=
  decide (subU32 tempoAtual ultimaLeitura ≥ INTERVALO_LEITURA)

/-- Lines 244-252: the humidity reading, with the simulator as fallback for NaN. -/
def lerUmidade (s : Estado) (e : Entrada) : Estado :=
  match e.umidade_ar with
  | some umidade_ar => { s with umidade_solo := umidade_ar }
  | none =>
    let r := simularUmidadeTeste e.random s e.tempoUmidade
    { r.1 with umidade_solo := r.2 }

/-- Lines 259-269: the CSV line printed for the current state. -/
def linhaCSV (s : Estado) (tempoAtual : Nat) : Registro where
  timestamp := tempoAtual
  fosforo := if s.fosforo_presente then "1" else "0"
  potassio := if s.potassio_presente then "1" else "0"
  ph := s.ph_valor
  umidade := s.umidade_solo
  irrigacao := if s.irrigacaoAtiva then "1" else "0"

/-- Lines 231-269: body of the interval-gated block. -/
def cicloLeitura (seno : ℚ → ℚ) (s : Estado) (e : Entrada) (tempoAtual : Nat) : Estado :=
  let s := { s with ultimaLeitura := tempoAtual }
  let s := { s with ph_valor := simularPH seno s e.tempoPH }
  let s := lerUmidade s e
  let s := atualizarIrrigacao s
  { s with serial := s.serial ++ [linhaCSV s tempoAtual] }

/-- Lines 205-288: one iteration.  The final `delay(100)` changes no state. -/
def loop (seno : ℚ → ℚ) (s : Estado) (e : Entrada) : Estado :=
  let s := botaoFosforo s e.nivelFosforo
  let s := botaoPotassio s e.nivelPotassio
  let tempoAtual := millis e.tempoLoop
  if intervaloDecorrido tempoAtual s.ultimaLeitura then
    cicloLeitura seno s e tempoAtual
  else s

/-- State after `setup` (entered at count `t0`) and then one `loop` iteration per entry. -/
def executar (seno : ℚ → ℚ) (t0 : Nat) (es : List Entrada) : Estado :=
  es.foldl (loop seno) (setup estadoInicial t0)

/-- State after the two button steps of an iteration. -/
def aposBotoes (s : Estado) (e : Entrada) : Estado :=
  botaoPotassio (botaoFosforo s e.nivelFosforo) e.nivelPotassio

/-- Entry of one iteration whose three time reads all return count `t`, with both buttons
released (raw level high) and the given humidity reading and random function. -/
def entradaEm (t : Nat) (umidade_ar : Option ℚ) (random : ℤ → ℤ → ℤ) : Entrada where
  nivelFosforo := true
  nivelPotassio := true
  tempoLoop := t
  tempoPH := t
  tempoUmidade := t
  umidade_ar := umidade_ar
  random := random

/-- Times of the band flips over successive calls of `simularUmidadeTeste` at the given
counts: the time read by a call is recorded when the call changes `umidadeBaixa`. -/
def inversoesSimulador (random : ℤ → ℤ → ℤ) : Estado → List Nat → List Nat
  | _, [] => []
  | s, t :: ts =>
    if (simularUmidadeTeste random s t).1.umidadeBaixa != s.umidadeBaixa then
      millis t :: inversoesSimulador random (simularUmidadeTeste random s t).1 ts
    else inversoesSimulador random (simularUmidadeTeste random s t).1 ts

/-- Every two consecutive times of the list are strictly more than `p` apart (wrapped
difference). -/
def afastadas (p : Nat) : List Nat → Bool
  | a :: b :: resto => decide (subU32 b a > p) && afastadas p (b :: resto)
  | _ => true

/-- The humidity reading of an entry is missing or in [0, 100], and its `random` respects
`min ≤ random(min, max) < max`. -/
def EntradaPlausivel (e : Entrada) : Prop :=
  (∀ r : ℚ, e.umidade_ar = some r → 0 ≤ r ∧ r ≤ 100)
    ∧ (∀ a b : ℤ, a < b → a ≤ e.random a b ∧ e.random a b < b)

/-! ## Reference rule of the specification -/

/-- The three-way rule as the specification words it: active when `moistureLow` and `phOk`;
otherwise inactive when `moistureHigh` or not `phOk`; otherwise the previous state. -/
def regraReferencia (moisture pH : ℚ) (previous : Bool) : Bool :=
  if moisture < 30 ∧ (6 ≤ pH ∧ pH ≤ 15 / 2) then true
  else if moisture > 70 ∨ ¬ (6 ≤ pH ∧ pH ≤ 15 / 2) then false
  else previous

/-- State carrying the given readings and previous actuator state, everything else initial. -/
def estadoCom (moisture pH : ℚ) (previous : Bool) : Estado :=
  { estadoInicial with umidade_solo := moisture, ph_valor := pH, irrigacaoAtiva := previous }

/-- The pH of the specification at elapsed time `t`:
`round(100 * clamp(7.0 + 3.5 * sin(0.001 * t), 0, 14)) / 100`, with `round` to the nearest
integer and `clamp` written with `max` and `min`. -/
def phReferencia (seno : ℚ → ℚ) (t : Nat) : ℚ :=
  (round (100 * max 0 (min 14 (7 + 7 / 2 * seno (1 / 1000 * (t : ℚ))))) : ℚ) / 100

/-! ## Theorems -/

/-- C1: for every moisture, pH and previous actuator state (and whatever the rest of the
state is), the `irrigacaoAtiva` left by `atualizarIrrigacao` equals the three-way reference
rule; the five cases listed by the specification hold. -/
theorem atualizarIrrigacao_eq_regraReferencia :
    (∀ s : Estado, (atualizarIrrigacao s).irrigacaoAtiva
        = regraReferencia s.umidade_solo s.ph_valor s.irrigacaoAtiva)
    ∧ (atualizarIrrigacao (estadoCom 20 (13 / 2) false)).irrigacaoAtiva = true
    ∧ (atualizarIrrigacao (estadoCom 80 (13 / 2) true)).irrigacaoAtiva = false
    ∧ (atualizarIrrigacao (estadoCom 50 (13 / 2) true)).irrigacaoAtiva = true
    ∧ (atualizarIrrigacao (estadoCom 50 5 true)).irrigacaoAtiva = false
    ∧ (atualizarIrrigacao (estadoCom 20 5 false)).irrigacaoAtiva = false := by
  refine ⟨?_, ?_, ?_, ?_, ?_, ?_⟩
  · intro s
    simp only [atualizarIrrigacao, decidirIrrigacao, regraReferencia, LIMITE_UMIDADE_MIN,
      LIMITE_UMIDADE_MAX, LIMITE_PH_MIN, LIMITE_PH_MAX]
    by_cases h1 : s.umidade_solo < 30 <;> by_cases h2 : (6 : ℚ) ≤ s.ph_valor <;>
      by_cases h3 : s.ph_valor ≤ 15 / 2 <;> by_cases h4 : s.umidade_solo > 70 <;>
      simp [h1, h2, h3, h4]
  all_goals
    simp only [atualizarIrrigacao, decidirIrrigacao, estadoCom, estadoInicial,
      LIMITE_UMIDADE_MIN, LIMITE_UMIDADE_MAX, LIMITE_PH_MIN, LIMITE_PH_MAX]
    norm_num

/-- C2: whenever moisture is above 70 or the pH lies outside [6.0, 7.5], the state left by
`atualizarIrrigacao` is inactive, and both outputs are low, whatever the previous state. -/
theorem atualizarIrrigacao_desativa (s : Estado)
    (h : s.umidade_solo > 70 ∨ ¬ (6 ≤ s.ph_valor ∧ s.ph_valor ≤ 15 / 2)) :
    (atualizarIrrigacao s).irrigacaoAtiva = false
      ∧ (atualizarIrrigacao s).pinRele = false
      ∧ (atualizarIrrigacao s).pinLedBomba = false := by
  have hd : decidirIrrigacao s.umidade_solo s.ph_valor s.irrigacaoAtiva = false := by
    simp only [decidirIrrigacao, LIMITE_UMIDADE_MIN, LIMITE_UMIDADE_MAX, LIMITE_PH_MIN,
      LIMITE_PH_MAX]
    rcases h with h | h
    · have h1 : ¬ s.umidade_solo < 30 := by linarith
      simp [h1, h]
    · by_cases h2 : (6 : ℚ) ≤ s.ph_valor
      · have h3 : ¬ s.ph_valor ≤ 15 / 2 := fun h3 => h ⟨h2, h3⟩
        simp [h3]
      · simp [h2]
  simp [atualizarIrrigacao, hd]

/-- Witness for C2: moisture 50, pH 5.0, pump previously on. -/
theorem atualizarIrrigacao_desativa_witness :
    (atualizarIrrigacao (estadoCom 50 5 true)).irrigacaoAtiva = false
      ∧ (atualizarIrrigacao (estadoCom 50 5 true)).pinRele = false
      ∧ (atualizarIrrigacao (estadoCom 50 5 true)).pinLedBomba = false :=
  atualizarIrrigacao_desativa (estadoCom 50 5 true)
    (Or.inr (by simp only [estadoCom, estadoInicial]; norm_num))

/-- Inside the region 30 ≤ moisture ≤ 70, 6.0 ≤ pH ≤ 7.5 the decision returns the previous
value. -/
theorem decidirIrrigacao_dentro (m pH : ℚ) (p : Bool)
    (h : (30 ≤ m ∧ m ≤ 70) ∧ (6 ≤ pH ∧ pH ≤ 15 / 2)) : decidirIrrigacao m pH p = p := by
  obtain ⟨⟨h1, h2⟩, h3, h4⟩ := h
  have h5 : ¬ m < 30 := by linarith
  have h6 : ¬ m > 70 := by linarith
  simp [decidirIrrigacao, LIMITE_UMIDADE_MIN, LIMITE_UMIDADE_MAX, LIMITE_PH_MIN,
    LIMITE_PH_MAX, h3, h4, h5, h6]

/-- Outside the region 30 ≤ moisture ≤ 70, 6.0 ≤ pH ≤ 7.5 the decision ignores the previous
value. -/
theorem decidirIrrigacao_fora (m pH : ℚ) (p q : Bool)
    (h : ¬ ((30 ≤ m ∧ m ≤ 70) ∧ (6 ≤ pH ∧ pH ≤ 15 / 2))) :
    decidirIrrigacao m pH p = decidirIrrigacao m pH q := by
  simp only [decidirIrrigacao, LIMITE_UMIDADE_MIN, LIMITE_UMIDADE_MAX, LIMITE_PH_MIN,
    LIMITE_PH_MAX]
  by_cases h1 : m < 30 <;> by_cases h2 : (6 : ℚ) ≤ pH <;>
    by_cases h3 : pH ≤ 15 / 2 <;> by_cases h4 : m > 70 <;>
    simp [h1, h2, h3, h4]
  exact absurd ⟨⟨le_of_not_lt h1, le_of_not_lt h4⟩, h2, h3⟩ h

/-- C3: the hold region is exactly 30 ≤ moisture ≤ 70 with 6.0 ≤ pH ≤ 7.5.  For readings
inside it `atualizarIrrigacao` leaves `irrigacaoAtiva` at its previous value, for both
previous values; for readings outside it the whole resulting state is the same for both
previous values.  Hence the previous value is kept for both values exactly inside the region. -/
theorem zonaMorta_exata (s : Estado) :
    ((30 ≤ s.umidade_solo ∧ s.umidade_solo ≤ 70) ∧ (6 ≤ s.ph_valor ∧ s.ph_valor ≤ 15 / 2) →
        ∀ p : Bool, (atualizarIrrigacao { s with irrigacaoAtiva := p }).irrigacaoAtiva = p)
    ∧ (¬ ((30 ≤ s.umidade_solo ∧ s.umidade_solo ≤ 70)
          ∧ (6 ≤ s.ph_valor ∧ s.ph_valor ≤ 15 / 2)) →
        atualizarIrrigacao { s with irrigacaoAtiva := true }
          = atualizarIrrigacao { s with irrigacaoAtiva := false })
    ∧ ((∀ p : Bool, (atualizarIrrigacao { s with irrigacaoAtiva := p }).irrigacaoAtiva = p)
        ↔ (30 ≤ s.umidade_solo ∧ s.umidade_solo ≤ 70)
          ∧ (6 ≤ s.ph_valor ∧ s.ph_valor ≤ 15 / 2)) := by
  refine ⟨fun h p => ?_, fun h => ?_, fun h => ?_, fun h p => ?_⟩
  · simp [atualizarIrrigacao, decidirIrrigacao_dentro _ _ p h]
  · simp [atualizarIrrigacao, decidirIrrigacao_fora _ _ true false h]
  · by_contra hn
    have ht := h true
    have hf := h false
    simp only [atualizarIrrigacao] at ht hf
    rw [decidirIrrigacao_fora _ _ true false hn, hf] at ht
    exact Bool.false_ne_true ht
  · simp [atualizarIrrigacao, decidirIrrigacao_dentro _ _ p h]

/-- Witness for C3: inside the region at (50, 6.5), outside it at (20, 6.5). -/
theorem zonaMorta_exata_witness :
    (∀ p : Bool, (atualizarIrrigacao
        { estadoCom 50 (13 / 2) false with irrigacaoAtiva := p }).irrigacaoAtiva = p)
    ∧ atualizarIrrigacao { estadoCom 20 (13 / 2) false with irrigacaoAtiva := true }
        = atualizarIrrigacao { estadoCom 20 (13 / 2) false with irrigacaoAtiva := false } :=
  ⟨(zonaMorta_exata (estadoCom 50 (13 / 2) false)).1
      (by simp only [estadoCom, estadoInicial]; norm_num),
   (zonaMorta_exata (estadoCom 20 (13 / 2) false)).2.1
      (by simp only [estadoCom, estadoInicial]; norm_num)⟩

/-! ### Frame lemmas for the steps of `loop` -/

/-- The phosphorus step only touches the two phosphorus flags. -/
theorem botaoFosforo_frame (s : Estado) (nivel : Bool) :
    botaoFosforo s nivel
      = { s with fosforo_anterior := (botaoFosforo s nivel).fosforo_anterior,
                 fosforo_presente := (botaoFosforo s nivel).fosforo_presente } := by
  unfold botaoFosforo
  dsimp only
  split <;> rfl

/-- The potassium step only touches the two potassium flags. -/
theorem botaoPotassio_frame (s : Estado) (nivel : Bool) :
    botaoPotassio s nivel
      = { s with potassio_anterior := (botaoPotassio s nivel).potassio_anterior,
                 potassio_presente := (botaoPotassio s nivel).potassio_presente } := by
  unfold botaoPotassio
  dsimp only
  split <;> rfl

/-- The simulator only touches its two statics. -/
theorem simularUmidadeTeste_frame (random : ℤ → ℤ → ℤ) (s : Estado) (t : Nat) :
    (simularUmidadeTeste random s t).1
      = { s with ultimaMudanca := (simularUmidadeTeste random s t).1.ultimaMudanca,
                 umidadeBaixa := (simularUmidadeTeste random s t).1.umidadeBaixa } := by
  unfold simularUmidadeTeste
  dsimp only
  split <;> rfl

/-- The two button steps together only touch the four button flags. -/
theorem aposBotoes_frame (s : Estado) (e : Entrada) :
    aposBotoes s e
      = { s with fosforo_anterior := (aposBotoes s e).fosforo_anterior,
                 fosforo_presente := (aposBotoes s e).fosforo_presente,
                 potassio_anterior := (aposBotoes s e).potassio_anterior,
                 potassio_presente := (aposBotoes s e).potassio_presente } := by
  unfold aposBotoes
  rw [botaoPotassio_frame, botaoFosforo_frame]

/-- The humidity step leaves everything but `umidade_solo` and the simulator statics. -/
theorem lerUmidade_frame (s : Estado) (e : Entrada) :
    lerUmidade s e
      = { s with umidade_solo := (lerUmidade s e).umidade_solo,
                 ultimaMudanca := (lerUmidade s e).ultimaMudanca,
                 umidadeBaixa := (lerUmidade s e).umidadeBaixa } := by
  unfold lerUmidade
  cases e.umidade_ar with
  | some r => rfl
  | none =>
    dsimp only
    rw [simularUmidadeTeste_frame]

/-- When the gate is open the iteration is the button steps followed by the sampling cycle. -/
theorem loop_dispara (seno : ℚ → ℚ) (s : Estado) (e : Entrada)
    (h : intervaloDecorrido (millis e.tempoLoop) s.ultimaLeitura = true) :
    loop seno s e = cicloLeitura seno (aposBotoes s e) e (millis e.tempoLoop) := by
  have hu : (aposBotoes s e).ultimaLeitura = s.ultimaLeitura := by rw [aposBotoes_frame]
  unfold loop
  dsimp only
  rw [show botaoPotassio (botaoFosforo s e.nivelFosforo) e.nivelPotassio = aposBotoes s e
    from rfl, hu, if_pos h]

/-- When the gate is closed the iteration is the button steps alone. -/
theorem loop_nao_dispara (seno : ℚ → ℚ) (s : Estado) (e : Entrada)
    (h : intervaloDecorrido (millis e.tempoLoop) s.ultimaLeitura = false) :
    loop seno s e = aposBotoes s e := by
  have hu : (aposBotoes s e).ultimaLeitura = s.ultimaLeitura := by rw [aposBotoes_frame]
  unfold loop
  dsimp only
  rw [show botaoPotassio (botaoFosforo s e.nivelFosforo) e.nivelPotassio = aposBotoes s e
    from rfl, hu, h]
  rfl

/-- Shape of the state left by the sampling cycle. -/
theorem cicloLeitura_frame (seno : ℚ → ℚ) (s : Estado) (e : Entrada) (t : Nat) :
    cicloLeitura seno s e t
      = { s with
          ultimaLeitura := t
          ph_valor := simularPH seno s e.tempoPH
          umidade_solo := (lerUmidade s e).umidade_solo
          ultimaMudanca := (lerUmidade s e).ultimaMudanca
          umidadeBaixa := (lerUmidade s e).umidadeBaixa
          irrigacaoAtiva := decidirIrrigacao (lerUmidade s e).umidade_solo
            (simularPH seno s e.tempoPH) s.irrigacaoAtiva
          pinRele := decidirIrrigacao (lerUmidade s e).umidade_solo
            (simularPH seno s e.tempoPH) s.irrigacaoAtiva
          pinLedBomba := decidirIrrigacao (lerUmidade s e).umidade_solo
            (simularPH seno s e.tempoPH) s.irrigacaoAtiva
          serial := s.serial ++ [linhaCSV (cicloLeitura seno s e t) t] } := by
  unfold cicloLeitura lerUmidade
  cases e.umidade_ar with
  | some r =>
    simp [atualizarIrrigacao, linhaCSV, simularPH]
  | none =>
    simp only [atualizarIrrigacao, linhaCSV, simularPH, simularUmidadeTeste]
    split <;> simp

/-- The sampling cycle appends exactly the CSV line of the state it leaves. -/
theorem cicloLeitura_serial (seno : ℚ → ℚ) (s : Estado) (e : Entrada) (t : Nat) :
    (cicloLeitura seno s e t).serial = s.serial ++ [linhaCSV (cicloLeitura seno s e t) t] := by
  conv_lhs => rw [cicloLeitura_frame]

/-- The sampling cycle leaves the relay at the level of `irrigacaoAtiva`. -/
theorem cicloLeitura_pinRele (seno : ℚ → ℚ) (s : Estado) (e : Entrada) (t : Nat) :
    (cicloLeitura seno s e t).pinRele = (cicloLeitura seno s e t).irrigacaoAtiva := by
  rw [cicloLeitura_frame]

/-- The sampling cycle leaves the LED at the level of `irrigacaoAtiva`. -/
theorem cicloLeitura_pinLedBomba (seno : ℚ → ℚ) (s : Estado) (e : Entrada) (t : Nat) :
    (cicloLeitura seno s e t).pinLedBomba = (cicloLeitura seno s e t).irrigacaoAtiva := by
  rw [cicloLeitura_frame]

/-- The button steps print nothing. -/
theorem aposBotoes_serial (s : Estado) (e : Entrada) : (aposBotoes s e).serial = s.serial := by
  conv_lhs => rw [aposBotoes_frame]

/-- One iteration keeps both outputs equal to `irrigacaoAtiva`. -/
theorem loop_preserva_saidas (seno : ℚ → ℚ) (s : Estado) (e : Entrada)
    (h : s.pinRele = s.irrigacaoAtiva ∧ s.pinLedBomba = s.irrigacaoAtiva) :
    (loop seno s e).pinRele = (loop seno s e).irrigacaoAtiva
      ∧ (loop seno s e).pinLedBomba = (loop seno s e).irrigacaoAtiva := by
  cases hg : intervaloDecorrido (millis e.tempoLoop) s.ultimaLeitura with
  | false =>
    rw [loop_nao_dispara seno s e hg, aposBotoes_frame]
    exact h
  | true =>
    rw [loop_dispara seno s e hg, cicloLeitura_frame]
    exact ⟨rfl, rfl⟩

/-- Folding `loop` over any entries keeps both outputs equal to `irrigacaoAtiva`. -/
theorem foldl_loop_preserva_saidas (seno : ℚ → ℚ) (es : List Entrada) :
    ∀ s : Estado, (s.pinRele = s.irrigacaoAtiva ∧ s.pinLedBomba = s.irrigacaoAtiva) →
      (es.foldl (loop seno) s).pinRele = (es.foldl (loop seno) s).irrigacaoAtiva
        ∧ (es.foldl (loop seno) s).pinLedBomba = (es.foldl (loop seno) s).irrigacaoAtiva := by
  induction es with
  | nil => intro s h; exact h
  | cons e es ih =>
    intro s h
    exact ih (loop seno s e) (loop_preserva_saidas seno s e h)

/-- C4: after `setup` and after every later `loop` iteration the relay level and the LED level
are equal to each other and to `irrigacaoAtiva`; and whenever an iteration appends a report,
its `irrigacao` field is `"1"` or `"0"` according to the level that iteration wrote to the
relay and to the LED. -/
theorem saidas_seguem_irrigacaoAtiva (seno : ℚ → ℚ) :
    (∀ (t0 : Nat) (es : List Entrada),
        (executar seno t0 es).pinRele = (executar seno t0 es).pinLedBomba
          ∧ (executar seno t0 es).pinRele = (executar seno t0 es).irrigacaoAtiva)
    ∧ (∀ (s : Estado) (e : Entrada) (r : Registro),
        (loop seno s e).serial = s.serial ++ [r] →
          r.irrigacao = (if (loop seno s e).pinRele then "1" else "0")
            ∧ r.irrigacao = (if (loop seno s e).pinLedBomba then "1" else "0")
            ∧ r.irrigacao = (if (loop seno s e).irrigacaoAtiva then "1" else "0")) := by
  constructor
  · intro t0 es
    have h := foldl_loop_preserva_saidas seno es (setup estadoInicial t0) ⟨rfl, rfl⟩
    exact ⟨h.1.trans h.2.symm, h.1⟩
  · intro s e r h
    cases hg : intervaloDecorrido (millis e.tempoLoop) s.ultimaLeitura with
    | false =>
      rw [loop_nao_dispara seno s e hg, aposBotoes_serial] at h
      have hl := congrArg List.length h
      simp at hl
    | true =>
      rw [loop_dispara seno s e hg] at h ⊢
      rw [cicloLeitura_serial, aposBotoes_serial] at h
      have hr := List.append_cancel_left h
      simp only [List.cons.injEq, and_true] at hr
      subst hr
      rw [cicloLeitura_pinRele, cicloLeitura_pinLedBomba]
      exact ⟨rfl, rfl, rfl⟩

/-- Witness for C4: the first firing iteration after start-up, moisture 20 and pH 7.00, turns
the pump on and reports `"1"`. -/
theorem saidas_seguem_irrigacaoAtiva_witness :
    (loop (fun _ => 0) estadoInicial (entradaEm 5000 (some 20) (fun a _ => a))).serial
        = estadoInicial.serial ++ [⟨5000, "0", "0", 7, 20, "1"⟩]
    ∧ (⟨5000, "0", "0", 7, 20, "1"⟩ : Registro).irrigacao
        = (if (loop (fun _ => 0) estadoInicial
            (entradaEm 5000 (some 20) (fun a _ => a))).pinRele then "1" else "0") := by
  have hs : (loop (fun _ => 0) estadoInicial (entradaEm 5000 (some 20) (fun a _ => a))).serial
      = estadoInicial.serial ++ [⟨5000, "0", "0", 7, 20, "1"⟩] := by
    simp [loop, botaoFosforo, botaoPotassio, intervaloDecorrido, cicloLeitura, lerUmidade,
      atualizarIrrigacao, decidirIrrigacao, linhaCSV, simularPH, constrain, arduinoRound,
      subU32, millis, U32, estadoInicial, entradaEm, INTERVALO_LEITURA, LIMITE_UMIDADE_MIN,
      LIMITE_UMIDADE_MAX, LIMITE_PH_MIN, LIMITE_PH_MAX, ph_base, ph_amplitude, ph_frequencia]
    norm_num
  exact ⟨hs,
    ((saidas_seguem_irrigacaoAtiva (fun _ => 0)).2 estadoInicial
      (entradaEm 5000 (some 20) (fun a _ => a)) ⟨5000, "0", "0", 7, 20, "1"⟩ hs).1⟩

/-- After the phosphorus step the stored last level is the inverted raw level. -/
theorem botaoFosforo_anterior (s : Estado) (nivel : Bool) :
    (botaoFosforo s nivel).fosforo_anterior = !nivel := by
  unfold botaoFosforo
  dsimp only
  split
  · rfl
  · rename_i h
    revert h
    cases nivel <;> cases s.fosforo_anterior <;> decide

/-- After the potassium step the stored last level is the inverted raw level. -/
theorem botaoPotassio_anterior (s : Estado) (nivel : Bool) :
    (botaoPotassio s nivel).potassio_anterior = !nivel := by
  unfold botaoPotassio
  dsimp only
  split
  · rfl
  · rename_i h
    revert h
    cases nivel <;> cases s.potassio_anterior <;> decide

/-- After both button steps the stored last levels are the inverted raw levels. -/
theorem aposBotoes_anterior (s : Estado) (e : Entrada) :
    (aposBotoes s e).fosforo_anterior = (!e.nivelFosforo)
      ∧ (aposBotoes s e).potassio_anterior = (!e.nivelPotassio) := by
  constructor
  · unfold aposBotoes
    rw [botaoPotassio_frame]
    exact botaoFosforo_anterior s e.nivelFosforo
  · exact botaoPotassio_anterior _ e.nivelPotassio

/-- The gate of line 230 as an inequality. -/
theorem intervaloDecorrido_iff (tempoAtual ultimaLeitura : Nat) :
    intervaloDecorrido tempoAtual ultimaLeitura = true
      ↔ subU32 tempoAtual ultimaLeitura ≥ 5000 := by
  simp [intervaloDecorrido, INTERVALO_LEITURA]

/-- C5: in one `loop` iteration, with `now = millis e.tempoLoop`, a report is appended if and
only if the wrapped difference `now - ultimaLeitura` is at least 5000.  When it is, the
iteration sets `ultimaLeitura = now`, appends exactly one report, and `irrigacaoAtiva` is the
decision on the new readings and the previous value.  When it is not, `ultimaLeitura`,
`ph_valor`, `umidade_solo`, `irrigacaoAtiva`, both outputs and the report log are unchanged.
In both cases the two button levels are taken into the stored last levels.  `setup` does not
change `irrigacaoAtiva`. -/
theorem ciclo_sse_intervalo (seno : ℚ → ℚ) (s : Estado) (e : Entrada) :
    ((loop seno s e).serial.length = s.serial.length + 1
        ↔ subU32 (millis e.tempoLoop) s.ultimaLeitura ≥ 5000)
    ∧ (subU32 (millis e.tempoLoop) s.ultimaLeitura ≥ 5000 →
        (loop seno s e).ultimaLeitura = millis e.tempoLoop
          ∧ (∃ r : Registro, (loop seno s e).serial = s.serial ++ [r])
          ∧ (loop seno s e).irrigacaoAtiva
              = decidirIrrigacao (loop seno s e).umidade_solo (loop seno s e).ph_valor
                  s.irrigacaoAtiva)
    ∧ (¬ subU32 (millis e.tempoLoop) s.ultimaLeitura ≥ 5000 →
        (loop seno s e).ultimaLeitura = s.ultimaLeitura
          ∧ (loop seno s e).ph_valor = s.ph_valor
          ∧ (loop seno s e).umidade_solo = s.umidade_solo
          ∧ (loop seno s e).irrigacaoAtiva = s.irrigacaoAtiva
          ∧ (loop seno s e).pinRele = s.pinRele
          ∧ (loop seno s e).pinLedBomba = s.pinLedBomba
          ∧ (loop seno s e).serial = s.serial)
    ∧ ((loop seno s e).fosforo_anterior = (!e.nivelFosforo)
        ∧ (loop seno s e).potassio_anterior = (!e.nivelPotassio))
    ∧ (∀ t0 : Nat, (setup s t0).irrigacaoAtiva = s.irrigacaoAtiva) := by
  cases hg : intervaloDecorrido (millis e.tempoLoop) s.ultimaLeitura with
  | false =>
    have hn : ¬ subU32 (millis e.tempoLoop) s.ultimaLeitura ≥ 5000 := by
      rw [← intervaloDecorrido_iff, hg]; simp
    rw [loop_nao_dispara seno s e hg]
    refine ⟨?_, fun h => absurd h hn, fun _ => ?_, aposBotoes_anterior s e, fun _ => rfl⟩
    · rw [aposBotoes_serial]
      constructor
      · intro h; omega
      · intro h; exact absurd h hn
    · rw [aposBotoes_frame]
      exact ⟨rfl, rfl, rfl, rfl, rfl, rfl, rfl⟩
  | true =>
    have hp : subU32 (millis e.tempoLoop) s.ultimaLeitura ≥ 5000 :=
      (intervaloDecorrido_iff _ _).1 hg
    rw [loop_dispara seno s e hg]
    refine ⟨?_, fun _ => ⟨?_, ?_, ?_⟩, fun h => absurd hp h, ?_, fun _ => rfl⟩
    · rw [cicloLeitura_serial, aposBotoes_serial]
      simp [hp]
    · rw [cicloLeitura_frame]
    · exact ⟨_, by rw [cicloLeitura_serial, aposBotoes_serial]⟩
    · rw [cicloLeitura_frame, aposBotoes_frame]
    · rw [cicloLeitura_frame]
      exact aposBotoes_anterior s e

/-- Witness for C5: from the initial state the gate is open at count 5000 and closed at
count 4999. -/
theorem ciclo_sse_intervalo_witness :
    ((loop (fun _ => 0) estadoInicial (entradaEm 5000 none (fun a _ => a))).ultimaLeitura
        = 5000)
    ∧ ((loop (fun _ => 0) estadoInicial (entradaEm 4999 none (fun a _ => a))).serial
        = estadoInicial.serial) :=
  ⟨((ciclo_sse_intervalo (fun _ => 0) estadoInicial
      (entradaEm 5000 none (fun a _ => a))).2.1 (by decide)).1,
   ((ciclo_sse_intervalo (fun _ => 0) estadoInicial
      (entradaEm 4999 none (fun a _ => a))).2.2.1 (by decide)).2.2.2.2.2.2⟩

/-- The wrapped difference recovers the true elapsed time. -/
theorem subU32_soma (a d : Nat) (ha : a < 2 ^ 32) (hd : d < 2 ^ 32) :
    subU32 ((a + d) % 2 ^ 32) a = d := by
  unfold subU32 U32
  norm_num at ha hd ⊢
  omega

/-- C6: the interval gate is correct across wraparound of the 32-bit millisecond counter.  For
a stored `ultimaLeitura` below `2^32` and a true elapsed duration `d` below `2^32`, with
`now = (ultimaLeitura + d) mod 2^32`, the wrapped difference `now - ultimaLeitura` is `d`
itself, so the gate of line 230 is open if and only if `d ≥ 5000`. -/
theorem intervalo_correto_no_estouro (ultimaLeitura d : Nat)
    (hl : ultimaLeitura < 2 ^ 32) (hd : d < 2 ^ 32) :
    subU32 ((ultimaLeitura + d) % 2 ^ 32) ultimaLeitura = d
      ∧ (subU32 ((ultimaLeitura + d) % 2 ^ 32) ultimaLeitura ≥ INTERVALO_LEITURA ↔ d ≥ 5000)
      ∧ (intervaloDecorrido ((ultimaLeitura + d) % 2 ^ 32) ultimaLeitura = true ↔ d ≥ 5000) := by
  have h := subU32_soma ultimaLeitura d hl hd
  refine ⟨h, ?_, ?_⟩
  · rw [h]; rfl
  · rw [intervaloDecorrido_iff, h]

/-- Witness for C6: the counter wraps between the two reads (`now = 5000` is numerically
below `ultimaLeitura = 2^32 - 1000`) and 6000 ms have elapsed. -/
theorem intervalo_correto_no_estouro_witness :
    (4294966296 + 6000) % 2 ^ 32 < 4294966296
      ∧ subU32 ((4294966296 + 6000) % 2 ^ 32) 4294966296 = 6000
      ∧ (subU32 ((4294966296 + 6000) % 2 ^ 32) 4294966296 ≥ INTERVALO_LEITURA ↔ 6000 ≥ 5000)
      ∧ (intervaloDecorrido ((4294966296 + 6000) % 2 ^ 32) 4294966296 = true ↔ 6000 ≥ 5000) :=
  ⟨by decide, intervalo_correto_no_estouro 4294966296 6000 (by decide) (by decide)⟩

/-- Phosphorus button: the step changes the state exactly when the inverted raw level differs
from the stored last level, and then it writes both flags. -/
theorem botaoFosforo_muda_sse (s : Estado) (nivel : Bool) :
    (botaoFosforo s nivel ≠ s ↔ (!nivel) ≠ s.fosforo_anterior)
      ∧ ((!nivel) ≠ s.fosforo_anterior →
          botaoFosforo s nivel
            = { s with fosforo_anterior := !nivel, fosforo_presente := !nivel }) := by
  obtain ⟨a1, a2, a3, a4, a5, ant, a7, a8, a9, a10, a11, a12, a13, a14⟩ := s
  cases nivel <;> cases ant <;> simp [botaoFosforo]

/-- Potassium button: the step changes the state exactly when the inverted raw level differs
from the stored last level, and then it writes both flags. -/
theorem botaoPotassio_muda_sse (s : Estado) (nivel : Bool) :
    (botaoPotassio s nivel ≠ s ↔ (!nivel) ≠ s.potassio_anterior)
      ∧ ((!nivel) ≠ s.potassio_anterior →
          botaoPotassio s nivel
            = { s with potassio_anterior := !nivel, potassio_presente := !nivel }) := by
  obtain ⟨a1, a2, a3, a4, a5, a6, ant, a8, a9, a10, a11, a12, a13, a14⟩ := s
  cases nivel <;> cases ant <;> simp [botaoPotassio]

/-- C7: for each of the two buttons, every state and every raw level: the per-tick step
changes the state if and only if the inverted raw level differs from the stored last level,
in which case it writes the inverted level to both the presence flag and the stored last
level; afterwards the stored last level equals the inverted raw level; and a second step with
the same raw level changes nothing. -/
theorem botoes_detectam_transicao (s : Estado) (nivel : Bool) :
    ((botaoFosforo s nivel ≠ s ↔ (!nivel) ≠ s.fosforo_anterior)
      ∧ ((!nivel) ≠ s.fosforo_anterior →
          botaoFosforo s nivel
            = { s with fosforo_anterior := !nivel, fosforo_presente := !nivel })
      ∧ (botaoFosforo s nivel).fosforo_anterior = (!nivel)
      ∧ botaoFosforo (botaoFosforo s nivel) nivel = botaoFosforo s nivel)
    ∧ ((botaoPotassio s nivel ≠ s ↔ (!nivel) ≠ s.potassio_anterior)
      ∧ ((!nivel) ≠ s.potassio_anterior →
          botaoPotassio s nivel
            = { s with potassio_anterior := !nivel, potassio_presente := !nivel })
      ∧ (botaoPotassio s nivel).potassio_anterior = (!nivel)
      ∧ botaoPotassio (botaoPotassio s nivel) nivel = botaoPotassio s nivel) := by
  refine ⟨⟨(botaoFosforo_muda_sse s nivel).1, (botaoFosforo_muda_sse s nivel).2,
      botaoFosforo_anterior s nivel, ?_⟩,
    ⟨(botaoPotassio_muda_sse s nivel).1, (botaoPotassio_muda_sse s nivel).2,
      botaoPotassio_anterior s nivel, ?_⟩⟩
  · by_contra h
    exact ((botaoFosforo_muda_sse (botaoFosforo s nivel) nivel).1.1 h)
      (botaoFosforo_anterior s nivel).symm
  · by_contra h
    exact ((botaoPotassio_muda_sse (botaoPotassio s nivel) nivel).1.1 h)
      (botaoPotassio_anterior s nivel).symm

/-- Witness for C7: from the initial state (last level false) a low raw level is a transition
on either button. -/
theorem botoes_detectam_transicao_witness :
    botaoFosforo estadoInicial false
        = { estadoInicial with fosforo_anterior := !false, fosforo_presente := !false }
    ∧ botaoPotassio estadoInicial false
        = { estadoInicial with potassio_anterior := !false, potassio_presente := !false } :=
  ⟨(botoes_detectam_transicao estadoInicial false).1.2.1 (by decide),
   (botoes_detectam_transicao estadoInicial false).2.2.1 (by decide)⟩

/-- With a valid reading the humidity step stores it and does nothing else. -/
theorem lerUmidade_valida (s : Estado) (e : Entrada) (r : ℚ) (hr : e.umidade_ar = some r) :
    lerUmidade s e = { s with umidade_solo := r } := by
  unfold lerUmidade
  rw [hr]

/-- C8: in a sampling cycle (gate open) where the humidity driver returns a valid reading `r`,
`umidade_solo` becomes exactly `r` whatever the oscillation state is, the oscillation state
(`ultimaMudanca`, `umidadeBaixa`) is not modified, and the iteration does not depend on the
simulator's inputs (its time read and the random function): the simulator is not consulted. -/
theorem leitura_valida_ignora_simulador (seno : ℚ → ℚ) (s : Estado) (e : Entrada) (r : ℚ)
    (hr : e.umidade_ar = some r)
    (hg : subU32 (millis e.tempoLoop) s.ultimaLeitura ≥ 5000) :
    (loop seno s e).umidade_solo = r
      ∧ (loop seno s e).ultimaMudanca = s.ultimaMudanca
      ∧ (loop seno s e).umidadeBaixa = s.umidadeBaixa
      ∧ (∀ (random : ℤ → ℤ → ℤ) (t : Nat),
          loop seno s { e with random := random, tempoUmidade := t } = loop seno s e) := by
  have hg1 := (intervaloDecorrido_iff _ _).2 hg
  refine ⟨?_, ?_, ?_, ?_⟩
  · rw [loop_dispara seno s e hg1, cicloLeitura_frame, lerUmidade_valida _ e r hr]
  · rw [loop_dispara seno s e hg1, cicloLeitura_frame, lerUmidade_valida _ e r hr,
      aposBotoes_frame]
  · rw [loop_dispara seno s e hg1, cicloLeitura_frame, lerUmidade_valida _ e r hr,
      aposBotoes_frame]
  · intro random t
    rw [loop_dispara seno s e hg1,
      loop_dispara seno s { e with random := random, tempoUmidade := t } hg1]
    unfold cicloLeitura
    dsimp only
    rw [lerUmidade_valida _ e r hr,
      lerUmidade_valida _ { e with random := random, tempoUmidade := t } r hr]
    rfl

/-- Witness for C8: reading 42.5 at the first firing iteration, with the simulator's band
due to flip. -/
theorem leitura_valida_ignora_simulador_witness :
    (loop (fun _ => 0) { estadoInicial with umidadeBaixa := true }
        (entradaEm 30000 (some (85 / 2)) (fun a _ => a))).umidade_solo = 85 / 2
      ∧ (loop (fun _ => 0) { estadoInicial with umidadeBaixa := true }
        (entradaEm 30000 (some (85 / 2)) (fun a _ => a))).ultimaMudanca = 0
      ∧ (loop (fun _ => 0) { estadoInicial with umidadeBaixa := true }
        (entradaEm 30000 (some (85 / 2)) (fun a _ => a))).umidadeBaixa = true :=
  let h := leitura_valida_ignora_simulador (fun _ => 0) { estadoInicial with umidadeBaixa := true }
    (entradaEm 30000 (some (85 / 2)) (fun a _ => a)) (85 / 2) rfl (by decide)
  ⟨h.1, h.2.1, h.2.2.1⟩

/-- The value returned by the simulator is drawn for the band stored after the toggle check. -/
theorem simularUmidadeTeste_valor (random : ℤ → ℤ → ℤ) (s : Estado) (t : Nat) :
    (simularUmidadeTeste random s t).2
      = (((if (simularUmidadeTeste random s t).1.umidadeBaixa then random 15 29
          else random 71 85 : ℤ)) : ℚ) := by
  unfold simularUmidadeTeste
  rfl

/-- C9: assuming `random(a, b)` returns an integer `n` with `a ≤ n < b`, for every oscillation
state and call time `simularUmidadeTeste` returns an integer of the band that is active after
the call's toggle check: in 15..28 when `umidadeBaixa` is then true, in 71..84 when it is
false.  So the value is always in one of the two bands, and no integer is in both. -/
theorem simularUmidadeTeste_na_faixa (random : ℤ → ℤ → ℤ) (s : Estado) (t : Nat)
    (hrandom : ∀ a b : ℤ, a < b → a ≤ random a b ∧ random a b < b) :
    ((simularUmidadeTeste random s t).1.umidadeBaixa = true →
        ∃ n : ℤ, (simularUmidadeTeste random s t).2 = (n : ℚ) ∧ 15 ≤ n ∧ n ≤ 28)
    ∧ ((simularUmidadeTeste random s t).1.umidadeBaixa = false →
        ∃ n : ℤ, (simularUmidadeTeste random s t).2 = (n : ℚ) ∧ 71 ≤ n ∧ n ≤ 84)
    ∧ (∃ n : ℤ, (simularUmidadeTeste random s t).2 = (n : ℚ)
        ∧ ((15 ≤ n ∧ n ≤ 28) ∨ (71 ≤ n ∧ n ≤ 84)))
    ∧ (∀ n : ℤ, ¬ ((15 ≤ n ∧ n ≤ 28) ∧ (71 ≤ n ∧ n ≤ 84))) := by
  have hlo := hrandom 15 29 (by norm_num)
  have hhi := hrandom 71 85 (by norm_num)
  have hv := simularUmidadeTeste_valor random s t
  refine ⟨fun hb => ?_, fun hb => ?_, ?_, fun n hn => by omega⟩
  · rw [hb] at hv
    exact ⟨random 15 29, hv, hlo.1, by omega⟩
  · rw [hb] at hv
    exact ⟨random 71 85, hv, hhi.1, by omega⟩
  · cases hb : (simularUmidadeTeste random s t).1.umidadeBaixa with
    | true =>
      rw [hb] at hv
      exact ⟨random 15 29, hv, Or.inl ⟨hlo.1, by omega⟩⟩
    | false =>
      rw [hb] at hv
      exact ⟨random 71 85, hv, Or.inr ⟨hhi.1, by omega⟩⟩

/-- Witness for C9: `random` returning its lower bound, first call at count 30000 (the band
flips to low and 15 is returned). -/
theorem simularUmidadeTeste_na_faixa_witness :
    (simularUmidadeTeste (fun a _ => a) estadoInicial 30000).1.umidadeBaixa = true
      ∧ ∃ n : ℤ, (simularUmidadeTeste (fun a _ => a) estadoInicial 30000).2 = (n : ℚ)
          ∧ 15 ≤ n ∧ n ≤ 28 :=
  ⟨by decide,
   (simularUmidadeTeste_na_faixa (fun a _ => a) estadoInicial 30000
      (fun a b h => ⟨le_refl a, h⟩)).1 (by decide)⟩

/-- With a missing reading the humidity step is the simulator call. -/
theorem lerUmidade_ausente (s : Estado) (e : Entrada) (h : e.umidade_ar = none) :
    lerUmidade s e
      = { (simularUmidadeTeste e.random s e.tempoUmidade).1 with
          umidade_solo := (simularUmidadeTeste e.random s e.tempoUmidade).2 } := by
  unfold lerUmidade
  rw [h]

/-- Effect of a simulator call on its two statics. -/
theorem simularUmidadeTeste_estaticas (random : ℤ → ℤ → ℤ) (s : Estado) (t : Nat) :
    (simularUmidadeTeste random s t).1.ultimaMudanca
        = (if subU32 (millis t) s.ultimaMudanca > 25000 then millis t else s.ultimaMudanca)
      ∧ (simularUmidadeTeste random s t).1.umidadeBaixa
        = (if subU32 (millis t) s.ultimaMudanca > 25000 then !s.umidadeBaixa
            else s.umidadeBaixa) := by
  unfold simularUmidadeTeste
  by_cases hc : subU32 (millis t) s.ultimaMudanca > 25000
  · simp [hc]
  · simp [hc]

/-- Effect of one firing iteration with a missing reading on the scheduler and oscillation
fields. -/
theorem loop_fallback_campos (seno : ℚ → ℚ) (random : ℤ → ℤ → ℤ) (s : Estado) (t : Nat)
    (hg : subU32 (millis t) s.ultimaLeitura ≥ 5000) :
    (loop seno s (entradaEm t none random)).ultimaLeitura = millis t
      ∧ (loop seno s (entradaEm t none random)).ultimaMudanca
          = (if subU32 (millis t) s.ultimaMudanca > 25000 then millis t else s.ultimaMudanca)
      ∧ (loop seno s (entradaEm t none random)).umidadeBaixa
          = (if subU32 (millis t) s.ultimaMudanca > 25000 then !s.umidadeBaixa
              else s.umidadeBaixa) := by
  have hg1 : intervaloDecorrido (millis (entradaEm t none random).tempoLoop) s.ultimaLeitura
      = true := (intervaloDecorrido_iff _ _).2 hg
  have hm : (aposBotoes s (entradaEm t none random)).ultimaMudanca = s.ultimaMudanca := by
    rw [aposBotoes_frame]
  have hb : (aposBotoes s (entradaEm t none random)).umidadeBaixa = s.umidadeBaixa := by
    rw [aposBotoes_frame]
  have hs := simularUmidadeTeste_estaticas random (aposBotoes s (entradaEm t none random)) t
  rw [hm, hb] at hs
  rw [loop_dispara seno s _ hg1, cicloLeitura_frame,
    lerUmidade_ausente _ (entradaEm t none random) rfl]
  exact ⟨rfl, hs.1, hs.2⟩

/-- Wrapped difference of two reads of the time source that are `d` apart. -/
theorem subU32_millis_soma (a d : Nat) (hd : d < 2 ^ 32) :
    subU32 (millis (a + d)) (millis a) = d := by
  unfold subU32 millis U32
  norm_num at hd ⊢
  omega

/-- The clamp of line 104 written with `max` and `min`. -/
theorem constrain_eq_max_min (x : ℚ) : constrain x 0 14 = max 0 (min 14 x) := by
  unfold constrain
  by_cases h1 : x < 0
  · rw [if_pos h1, min_eq_right (by linarith), max_eq_left (le_of_lt h1)]
  · rw [if_neg h1]
    by_cases h2 : x > 14
    · rw [if_pos h2, min_eq_left (le_of_lt h2), max_eq_right (by norm_num)]
    · rw [if_neg h2, min_eq_right (le_of_not_lt h2), max_eq_right (le_of_not_lt h1)]

/-- The clamp of line 104 lands in [0, 14]. -/
theorem constrain_limites (x : ℚ) : 0 ≤ constrain x 0 14 ∧ constrain x 0 14 ≤ 14 := by
  unfold constrain
  by_cases h1 : x < 0
  · rw [if_pos h1]; norm_num
  · rw [if_neg h1]
    by_cases h2 : x > 14
    · rw [if_pos h2]; norm_num
    · rw [if_neg h2]; exact ⟨le_of_not_lt h1, le_of_not_lt h2⟩

/-- On non-negative values the Arduino `round` is rounding to the nearest integer. -/
theorem arduinoRound_eq_round (x : ℚ) (h : 0 ≤ x) : arduinoRound x = round x := by
  unfold arduinoRound
  rw [if_pos h, round_eq]

/-- Rounding a non-negative value that lies between two integers stays between them. -/
theorem arduinoRound_entre (x : ℚ) (a b : ℤ) (h0 : 0 ≤ x) (ha : (a : ℚ) ≤ x)
    (hb : x ≤ (b : ℚ)) : a ≤ arduinoRound x ∧ arduinoRound x ≤ b := by
  unfold arduinoRound
  rw [if_pos h0]
  constructor
  · rw [Int.le_floor]; linarith
  · rw [Int.floor_le_iff]; linarith

/-- The raw value of line 101, before the clamp, at elapsed time `T`. -/
theorem simularPH_desdobrado (seno : ℚ → ℚ) (s : Estado) (t : Nat) :
    simularPH seno s t
      = ((arduinoRound (constrain (7 + 7 / 2
          * seno (((subU32 (millis t) s.inicio_simulacao : Nat) : ℚ) * (1 / 1000))) 0 14
          * 100) : ℤ) : ℚ) / 100 := by
  simp only [simularPH, ph_base, ph_amplitude, ph_frequencia]

/-- In exact arithmetic (the model `simularPH`, no binary32 rounding), for every elapsed time
and every function taken for `sin`, the value is in [0, 14], is a multiple of 0.01, and equals
`round(100 * clamp(7.0 + 3.5 * sin(0.001 * t), 0, 14)) / 100` at the elapsed time
`t = millis() - inicio_simulacao`. -/
theorem simularPH_em_0_14 (seno : ℚ → ℚ) (s : Estado) (t : Nat) :
    (0 ≤ simularPH seno s t ∧ simularPH seno s t ≤ 14)
      ∧ (∃ k : ℤ, simularPH seno s t = (k : ℚ) / 100)
      ∧ simularPH seno s t = phReferencia seno (subU32 (millis t) s.inicio_simulacao) := by
  rw [simularPH_desdobrado]
  obtain ⟨hc0, hc14⟩ := constrain_limites
    (7 + 7 / 2 * seno (((subU32 (millis t) s.inicio_simulacao : Nat) : ℚ) * (1 / 1000)))
  have hx0 : 0 ≤ constrain (7 + 7 / 2
      * seno (((subU32 (millis t) s.inicio_simulacao : Nat) : ℚ) * (1 / 1000))) 0 14 * 100 := by
    linarith
  obtain ⟨hr0, hr14⟩ := arduinoRound_entre _ 0 1400 hx0 (by push_cast; linarith)
    (by push_cast; linarith)
  have hq0 : (0 : ℚ) ≤ ((arduinoRound (constrain (7 + 7 / 2
      * seno (((subU32 (millis t) s.inicio_simulacao : Nat) : ℚ) * (1 / 1000))) 0 14
      * 100) : ℤ) : ℚ) := by exact_mod_cast hr0
  have hq14 : (((arduinoRound (constrain (7 + 7 / 2
      * seno (((subU32 (millis t) s.inicio_simulacao : Nat) : ℚ) * (1 / 1000))) 0 14
      * 100) : ℤ) : ℚ)) ≤ 1400 := by exact_mod_cast hr14
  refine ⟨⟨by linarith, by linarith⟩, ⟨_, rfl⟩, ?_⟩
  unfold phReferencia
  rw [arduinoRound_eq_round _ hx0, constrain_eq_max_min, mul_comm (100 : ℚ),
    mul_comm (1 / 1000 : ℚ)]

/-- A simulator call whose wrapped difference exceeds 25000 flips the band and stores the
time read. -/
theorem simularUmidadeTeste_inverte (random : ℤ → ℤ → ℤ) (s : Estado) (t : Nat)
    (h : subU32 (millis t) s.ultimaMudanca > 25000) :
    (simularUmidadeTeste random s t).1
      = { s with ultimaMudanca := millis t, umidadeBaixa := !s.umidadeBaixa } := by
  unfold simularUmidadeTeste
  simp only [h, if_true]

/-- A simulator call whose wrapped difference is at most 25000 leaves the state as it is. -/
theorem simularUmidadeTeste_mantem (random : ℤ → ℤ → ℤ) (s : Estado) (t : Nat)
    (h : subU32 (millis t) s.ultimaMudanca ≤ 25000) :
    (simularUmidadeTeste random s t).1 = s := by
  unfold simularUmidadeTeste
  simp only [Nat.not_lt.2 h, gt_iff_lt, if_false]

/-- Over any sequence of calls the first flip is more than 25000 after the stored
`ultimaMudanca`, and consecutive flips are more than 25000 apart. -/
theorem inversoesSimulador_afastadas (random : ℤ → ℤ → ℤ) :
    ∀ (ts : List Nat) (s : Estado),
      (∀ f : Nat, (inversoesSimulador random s ts).head? = some f →
          subU32 f s.ultimaMudanca > 25000)
        ∧ afastadas 25000 (inversoesSimulador random s ts) = true := by
  intro ts
  induction ts with
  | nil =>
    intro s
    exact ⟨fun f hf => by simp [inversoesSimulador] at hf, rfl⟩
  | cons t ts ih =>
    intro s
    by_cases h : subU32 (millis t) s.ultimaMudanca > 25000
    · have hs := simularUmidadeTeste_inverte random s t h
      have hl : inversoesSimulador random s (t :: ts)
          = millis t :: inversoesSimulador random
              { s with ultimaMudanca := millis t, umidadeBaixa := !s.umidadeBaixa } ts := by
        rw [inversoesSimulador, hs]
        simp
      obtain ⟨ih1, ih2⟩ :=
        ih { s with ultimaMudanca := millis t, umidadeBaixa := !s.umidadeBaixa }
      rw [hl]
      refine ⟨fun f hf => ?_, ?_⟩
      · simp only [List.head?_cons, Option.some.injEq] at hf
        rw [← hf]; exact h
      · cases hL : inversoesSimulador random
            { s with ultimaMudanca := millis t, umidadeBaixa := !s.umidadeBaixa } ts with
        | nil => rfl
        | cons b r =>
          rw [hL] at ih1 ih2
          have hb : subU32 b (millis t) > 25000 := ih1 b rfl
          simp only [afastadas, hb, decide_True, Bool.true_and]
          exact ih2
    · have hs := simularUmidadeTeste_mantem random s t (Nat.le_of_not_lt h)
      have hl : inversoesSimulador random s (t :: ts) = inversoesSimulador random s ts := by
        rw [inversoesSimulador, hs]
        simp
      rw [hl]
      exact ih s

/-- C13: for every oscillation state and call time, `simularUmidadeTeste` flips
`umidadeBaixa` and sets `ultimaMudanca` to the time read if and only if the wrapped 32-bit
difference `now - ultimaMudanca` is strictly greater than 25000; with a difference of at most
25000 (exactly 25000 included) the state is unchanged.  Hence over any sequence of calls
consecutive flips are strictly more than 25000 apart. -/
theorem simularUmidadeTeste_inverte_sse (random : ℤ → ℤ → ℤ) (s : Estado) (t : Nat) :
    (subU32 (millis t) s.ultimaMudanca > 25000 →
        (simularUmidadeTeste random s t).1
          = { s with ultimaMudanca := millis t, umidadeBaixa := !s.umidadeBaixa })
    ∧ (subU32 (millis t) s.ultimaMudanca ≤ 25000 → (simularUmidadeTeste random s t).1 = s)
    ∧ ((simularUmidadeTeste random s t).1.umidadeBaixa ≠ s.umidadeBaixa
        ↔ subU32 (millis t) s.ultimaMudanca > 25000)
    ∧ (∀ ts : List Nat, afastadas 25000 (inversoesSimulador random s ts) = true) := by
  refine ⟨simularUmidadeTeste_inverte random s t, simularUmidadeTeste_mantem random s t,
    ⟨fun h => ?_, fun h => ?_⟩, fun ts => (inversoesSimulador_afastadas random ts s).2⟩
  · by_contra hn
    rw [simularUmidadeTeste_mantem random s t (Nat.le_of_not_lt hn)] at h
    exact h rfl
  · rw [simularUmidadeTeste_inverte random s t h]
    show (!s.umidadeBaixa) ≠ s.umidadeBaixa
    cases s.umidadeBaixa <;> decide

/-- Witness for C13: from the initial state a call at count 25000 changes nothing and a call
at count 25001 flips the band. -/
theorem simularUmidadeTeste_inverte_sse_witness :
    (simularUmidadeTeste (fun a _ => a) estadoInicial 25000).1 = estadoInicial
      ∧ (simularUmidadeTeste (fun a _ => a) estadoInicial 25001).1
          = { estadoInicial with ultimaMudanca := millis 25001,
                                 umidadeBaixa := !estadoInicial.umidadeBaixa } :=
  ⟨(simularUmidadeTeste_inverte_sse (fun a _ => a) estadoInicial 25000).2.1 (by decide),
   (simularUmidadeTeste_inverte_sse (fun a _ => a) estadoInicial 25001).1 (by decide)⟩

/-! ### Range of the stored moisture -/

/-- The value returned by the simulator is in [0, 100] when `random` respects its bounds. -/
theorem simularUmidadeTeste_em_0_100 (random : ℤ → ℤ → ℤ) (s : Estado) (t : Nat)
    (hrandom : ∀ a b : ℤ, a < b → a ≤ random a b ∧ random a b < b) :
    0 ≤ (simularUmidadeTeste random s t).2 ∧ (simularUmidadeTeste random s t).2 ≤ 100 := by
  have hlo := hrandom 15 29 (by norm_num)
  have hhi := hrandom 71 85 (by norm_num)
  rw [simularUmidadeTeste_valor]
  cases (simularUmidadeTeste random s t).1.umidadeBaixa with
  | true =>
    have h1 : (0 : ℤ) ≤ random 15 29 := by omega
    have h2 : random 15 29 ≤ 100 := by omega
    exact ⟨by exact_mod_cast h1, by exact_mod_cast h2⟩
  | false =>
    have h1 : (0 : ℤ) ≤ random 71 85 := by omega
    have h2 : random 71 85 ≤ 100 := by omega
    exact ⟨by exact_mod_cast h1, by exact_mod_cast h2⟩

/-- The humidity step stores a value in [0, 100] for a plausible entry. -/
theorem lerUmidade_em_0_100 (s : Estado) (e : Entrada) (he : EntradaPlausivel e) :
    0 ≤ (lerUmidade s e).umidade_solo ∧ (lerUmidade s e).umidade_solo ≤ 100 := by
  cases hr : e.umidade_ar with
  | some r =>
    rw [lerUmidade_valida s e r hr]
    exact he.1 r hr
  | none =>
    rw [lerUmidade_ausente s e hr]
    exact simularUmidadeTeste_em_0_100 e.random s e.tempoUmidade he.2

/-- One iteration with a plausible entry stores a moisture in [0, 100] when its gate is open,
and keeps the moisture in [0, 100] in any case. -/
theorem loop_umidade_em_0_100 (seno : ℚ → ℚ) (s : Estado) (e : Entrada)
    (he : EntradaPlausivel e) :
    (subU32 (millis e.tempoLoop) s.ultimaLeitura ≥ 5000 →
        0 ≤ (loop seno s e).umidade_solo ∧ (loop seno s e).umidade_solo ≤ 100)
      ∧ (0 ≤ s.umidade_solo ∧ s.umidade_solo ≤ 100 →
        0 ≤ (loop seno s e).umidade_solo ∧ (loop seno s e).umidade_solo ≤ 100) := by
  cases hg : intervaloDecorrido (millis e.tempoLoop) s.ultimaLeitura with
  | false =>
    have hn : ¬ subU32 (millis e.tempoLoop) s.ultimaLeitura ≥ 5000 := by
      rw [← intervaloDecorrido_iff, hg]; simp
    rw [loop_nao_dispara seno s e hg, aposBotoes_frame]
    exact ⟨fun h => absurd h hn, fun h => h⟩
  | true =>
    rw [loop_dispara seno s e hg, cicloLeitura_frame]
    exact ⟨fun _ => lerUmidade_em_0_100 _ e he, fun _ => lerUmidade_em_0_100 _ e he⟩

/-- A run over plausible entries keeps the moisture in [0, 100]. -/
theorem foldl_loop_umidade_em_0_100 (seno : ℚ → ℚ) (es : List Entrada) :
    ∀ s : Estado, (∀ e ∈ es, EntradaPlausivel e) →
      (0 ≤ s.umidade_solo ∧ s.umidade_solo ≤ 100) →
      0 ≤ (es.foldl (loop seno) s).umidade_solo ∧ (es.foldl (loop seno) s).umidade_solo ≤ 100 := by
  induction es with
  | nil => intro s _ h; exact h
  | cons e es ih =>
    intro s hes h
    exact ih (loop seno s e) (fun x hx => hes x (List.mem_cons_of_mem e hx))
      ((loop_umidade_em_0_100 seno s e (hes e (List.mem_cons_self e es))).2 h)

/-- Counterexample to C14: a valid (non-NaN) driver reading of 150 in a firing cycle is
stored unchanged, so `umidade_solo` is 150, outside [0, 100]. -/
theorem umidade_solo_fora_de_0_100 :
    (loop (fun _ => 0) estadoInicial (entradaEm 5000 (some 150) (fun a _ => a))).umidade_solo
        = 150
      ∧ ¬ (0 ≤ (loop (fun _ => 0) estadoInicial
              (entradaEm 5000 (some 150) (fun a _ => a))).umidade_solo
            ∧ (loop (fun _ => 0) estadoInicial
              (entradaEm 5000 (some 150) (fun a _ => a))).umidade_solo ≤ 100) := by
  have h : (loop (fun _ => 0) estadoInicial
      (entradaEm 5000 (some 150) (fun a _ => a))).umidade_solo = 150 := by
    rw [loop_dispara _ _ _ (by decide), cicloLeitura_frame,
      lerUmidade_valida _ (entradaEm 5000 (some 150) (fun a _ => a)) 150 rfl]
  rw [h]
  exact ⟨rfl, by norm_num⟩

/-- C14 (amended): when the driver's reading is missing or itself in [0, 100] (and `random`
respects its bounds), the moisture stored by a sampling cycle lies in [0, 100], for every
oscillation state; and over a run of such iterations from start-up `umidade_solo` is in
[0, 100] after every iteration.  A valid reading is stored as it is, without clamping. -/
theorem umidade_solo_em_0_100 (seno : ℚ → ℚ) :
    (∀ (s : Estado) (e : Entrada), EntradaPlausivel e →
        subU32 (millis e.tempoLoop) s.ultimaLeitura ≥ 5000 →
        0 ≤ (loop seno s e).umidade_solo ∧ (loop seno s e).umidade_solo ≤ 100)
    ∧ (∀ (t0 : Nat) (es : List Entrada), (∀ e ∈ es, EntradaPlausivel e) →
        0 ≤ (executar seno t0 es).umidade_solo ∧ (executar seno t0 es).umidade_solo ≤ 100) := by
  constructor
  · intro s e he hg
    exact (loop_umidade_em_0_100 seno s e he).1 hg
  · intro t0 es hes
    refine foldl_loop_umidade_em_0_100 seno es (setup estadoInicial t0) hes ?_
    show (0 : ℚ) ≤ 50 ∧ (50 : ℚ) ≤ 100
    norm_num

/-- Witness for C14 (amended): a reading of 42 at the first firing iteration. -/
theorem umidade_solo_em_0_100_witness :
    EntradaPlausivel (entradaEm 5000 (some 42) (fun a _ => a))
      ∧ 0 ≤ (loop (fun _ => 0) estadoInicial
          (entradaEm 5000 (some 42) (fun a _ => a))).umidade_solo
      ∧ (loop (fun _ => 0) estadoInicial
          (entradaEm 5000 (some 42) (fun a _ => a))).umidade_solo ≤ 100 :=
  have he : EntradaPlausivel (entradaEm 5000 (some 42) (fun a _ => a)) :=
    ⟨fun r hr => by
      simp only [entradaEm, Option.some.injEq] at hr
      subst hr
      norm_num,
     fun a _ h => ⟨le_refl a, h⟩⟩
  ⟨he, (umidade_solo_em_0_100 (fun _ => 0)).1 estadoInicial
    (entradaEm 5000 (some 42) (fun a _ => a)) he (by decide)⟩

/-- When the phosphorus flags agree, the phosphorus step leaves the presence flag at the
inverted raw level. -/
theorem botaoFosforo_presente (s : Estado) (nivel : Bool)
    (h : s.fosforo_presente = s.fosforo_anterior) :
    (botaoFosforo s nivel).fosforo_presente = !nivel := by
  obtain ⟨a1, pres, a3, a4, a5, ant, a7, a8, a9, a10, a11, a12, a13, a14⟩ := s
  simp only at h
  subst h
  cases nivel <;> cases pres <;> simp [botaoFosforo]

/-- When the potassium flags agree, the potassium step leaves the presence flag at the
inverted raw level. -/
theorem botaoPotassio_presente (s : Estado) (nivel : Bool)
    (h : s.potassio_presente = s.potassio_anterior) :
    (botaoPotassio s nivel).potassio_presente = !nivel := by
  obtain ⟨a1, a2, pres, a4, a5, a6, ant, a8, a9, a10, a11, a12, a13, a14⟩ := s
  simp only at h
  subst h
  cases nivel <;> cases pres <;> simp [botaoPotassio]

/-- Each button step leaves the flags of the other button alone. -/
theorem botoes_independentes (s : Estado) (nivel : Bool) :
    ((botaoFosforo s nivel).potassio_presente = s.potassio_presente
        ∧ (botaoFosforo s nivel).potassio_anterior = s.potassio_anterior)
      ∧ ((botaoPotassio s nivel).fosforo_presente = s.fosforo_presente
        ∧ (botaoPotassio s nivel).fosforo_anterior = s.fosforo_anterior) := by
  refine ⟨⟨?_, ?_⟩, ?_, ?_⟩
  · conv_lhs => rw [botaoFosforo_frame]
  · conv_lhs => rw [botaoFosforo_frame]
  · conv_lhs => rw [botaoPotassio_frame]
  · conv_lhs => rw [botaoPotassio_frame]

/-- The four button flags after an iteration are those left by the two button steps. -/
theorem loop_flags (seno : ℚ → ℚ) (s : Estado) (e : Entrada) :
    (loop seno s e).fosforo_presente = (aposBotoes s e).fosforo_presente
      ∧ (loop seno s e).fosforo_anterior = (aposBotoes s e).fosforo_anterior
      ∧ (loop seno s e).potassio_presente = (aposBotoes s e).potassio_presente
      ∧ (loop seno s e).potassio_anterior = (aposBotoes s e).potassio_anterior := by
  cases hg : intervaloDecorrido (millis e.tempoLoop) s.ultimaLeitura with
  | false =>
    rw [loop_nao_dispara seno s e hg]
    exact ⟨rfl, rfl, rfl, rfl⟩
  | true =>
    rw [loop_dispara seno s e hg, cicloLeitura_frame]
    exact ⟨rfl, rfl, rfl, rfl⟩

/-- From a state whose flags agree pairwise, both presence flags after the button steps are
the inverted raw levels. -/
theorem aposBotoes_presente (s : Estado) (e : Entrada)
    (h : s.fosforo_presente = s.fosforo_anterior ∧ s.potassio_presente = s.potassio_anterior) :
    (aposBotoes s e).fosforo_presente = (!e.nivelFosforo)
      ∧ (aposBotoes s e).potassio_presente = (!e.nivelPotassio) := by
  constructor
  · unfold aposBotoes
    rw [(botoes_independentes _ e.nivelPotassio).2.1]
    exact botaoFosforo_presente s e.nivelFosforo h.1
  · unfold aposBotoes
    refine botaoPotassio_presente _ e.nivelPotassio ?_
    rw [(botoes_independentes s e.nivelFosforo).1.1, (botoes_independentes s e.nivelFosforo).1.2]
    exact h.2

/-- Every reachable state has its presence flags equal to the stored last levels. -/
theorem executar_flags_concordam (seno : ℚ → ℚ) (t0 : Nat) (es : List Entrada) :
    (executar seno t0 es).fosforo_presente = (executar seno t0 es).fosforo_anterior
      ∧ (executar seno t0 es).potassio_presente = (executar seno t0 es).potassio_anterior := by
  have hgen : ∀ (es : List Entrada) (s : Estado),
      (s.fosforo_presente = s.fosforo_anterior ∧ s.potassio_presente = s.potassio_anterior) →
      (es.foldl (loop seno) s).fosforo_presente = (es.foldl (loop seno) s).fosforo_anterior
        ∧ (es.foldl (loop seno) s).potassio_presente
            = (es.foldl (loop seno) s).potassio_anterior := by
    intro es
    induction es with
    | nil => intro s h; exact h
    | cons e es ih =>
      intro s h
      refine ih (loop seno s e) ?_
      obtain ⟨h1, h2, h3, h4⟩ := loop_flags seno s e
      obtain ⟨p1, p2⟩ := aposBotoes_presente s e h
      obtain ⟨q1, q2⟩ := aposBotoes_anterior s e
      rw [h1, h2, h3, h4, p1, p2, q1, q2]
      exact ⟨rfl, rfl⟩
  exact hgen es (setup estadoInicial t0) ⟨rfl, rfl⟩

/-- C16: on every state reachable from the initial globals (`setup`, then any iterations),
after one more `loop` iteration `fosforo_presente = fosforo_anterior = NOT` the raw
phosphorus level read in that iteration, and likewise for potassium; a button step never
changes the other button's flags; so the presence fields of a report appended by that
iteration are `"1"` / `"0"` for the inverted raw levels read in it. -/
theorem flags_seguem_niveis (seno : ℚ → ℚ) (t0 : Nat) (es : List Entrada) (e : Entrada) :
    ((loop seno (executar seno t0 es) e).fosforo_presente = (!e.nivelFosforo)
      ∧ (loop seno (executar seno t0 es) e).fosforo_anterior = (!e.nivelFosforo)
      ∧ (loop seno (executar seno t0 es) e).potassio_presente = (!e.nivelPotassio)
      ∧ (loop seno (executar seno t0 es) e).potassio_anterior = (!e.nivelPotassio))
    ∧ (∀ (s : Estado) (nivel : Bool),
        ((botaoFosforo s nivel).potassio_presente = s.potassio_presente
          ∧ (botaoFosforo s nivel).potassio_anterior = s.potassio_anterior)
        ∧ ((botaoPotassio s nivel).fosforo_presente = s.fosforo_presente
          ∧ (botaoPotassio s nivel).fosforo_anterior = s.fosforo_anterior))
    ∧ (∀ r : Registro,
        (loop seno (executar seno t0 es) e).serial = (executar seno t0 es).serial ++ [r] →
          r.fosforo = (if (!e.nivelFosforo) then "1" else "0")
            ∧ r.potassio = (if (!e.nivelPotassio) then "1" else "0")) := by
  obtain ⟨h1, h2, h3, h4⟩ := loop_flags seno (executar seno t0 es) e
  obtain ⟨p1, p2⟩ := aposBotoes_presente (executar seno t0 es) e
    (executar_flags_concordam seno t0 es)
  obtain ⟨q1, q2⟩ := aposBotoes_anterior (executar seno t0 es) e
  refine ⟨⟨h1.trans p1, h2.trans q1, h3.trans p2, h4.trans q2⟩, botoes_independentes, ?_⟩
  intro r hr
  cases hg : intervaloDecorrido (millis e.tempoLoop) (executar seno t0 es).ultimaLeitura with
  | false =>
    rw [loop_nao_dispara seno _ e hg, aposBotoes_serial] at hr
    have hl := congrArg List.length hr
    simp at hl
  | true =>
    have hs := hr
    rw [loop_dispara seno _ e hg, cicloLeitura_serial, aposBotoes_serial] at hs
    have hr1 := List.append_cancel_left hs
    simp only [List.cons.injEq, and_true] at hr1
    rw [← hr1, ← loop_dispara seno _ e hg]
    show (if (loop seno (executar seno t0 es) e).fosforo_presente then "1" else "0")
        = (if (!e.nivelFosforo) then "1" else "0")
      ∧ (if (loop seno (executar seno t0 es) e).potassio_presente then "1" else "0")
        = (if (!e.nivelPotassio) then "1" else "0")
    rw [h1.trans p1, h3.trans p2]
    exact ⟨rfl, rfl⟩

/-- Witness for C16: first firing iteration after start-up with the phosphorus input low
(present) and the potassium input high (absent). -/
theorem flags_seguem_niveis_witness :
    (loop (fun _ => 0) (executar (fun _ => 0) 0 [])
        { entradaEm 5000 (some 20) (fun a _ => a) with nivelFosforo := false }).serial
      = (executar (fun _ => 0) 0 []).serial ++ [⟨5000, "1", "0", 7, 20, "1"⟩]
    ∧ (⟨5000, "1", "0", 7, 20, "1"⟩ : Registro).fosforo = (if (!false) then "1" else "0")
    ∧ (⟨5000, "1", "0", 7, 20, "1"⟩ : Registro).potassio = (if (!true) then "1" else "0") := by
  have hs : (loop (fun _ => 0) (executar (fun _ => 0) 0 [])
        { entradaEm 5000 (some 20) (fun a _ => a) with nivelFosforo := false }).serial
      = (executar (fun _ => 0) 0 []).serial ++ [⟨5000, "1", "0", 7, 20, "1"⟩] := by
    simp [loop, botaoFosforo, botaoPotassio, intervaloDecorrido, cicloLeitura, lerUmidade,
      atualizarIrrigacao, decidirIrrigacao, linhaCSV, simularPH, constrain, arduinoRound,
      subU32, millis, U32, estadoInicial, entradaEm, executar, setup, INTERVALO_LEITURA,
      LIMITE_UMIDADE_MIN, LIMITE_UMIDADE_MAX, LIMITE_PH_MIN, LIMITE_PH_MAX, ph_base,
      ph_amplitude, ph_frequencia]
    norm_num
  exact ⟨hs, (flags_seguem_niveis (fun _ => 0) 0 []
    { entradaEm 5000 (some 20) (fun a _ => a) with nivelFosforo := false }).2.2
    ⟨5000, "1", "0", 7, 20, "1"⟩ hs⟩

/-! ### The decision under simulated moisture, and idempotence -/

/-- On a moisture of the low band the decision is the pH test; the previous value is unused. -/
theorem decidirIrrigacao_faixa_baixa (n : ℤ) (pH : ℚ) (p : Bool) (hn : 15 ≤ n ∧ n ≤ 28) :
    decidirIrrigacao (n : ℚ) pH p = decide (6 ≤ pH ∧ pH ≤ 15 / 2) := by
  have h1 : (n : ℚ) < 30 := by exact_mod_cast (by omega : n < 30)
  simp only [decidirIrrigacao, LIMITE_UMIDADE_MIN, LIMITE_UMIDADE_MAX, LIMITE_PH_MIN,
    LIMITE_PH_MAX]
  by_cases h2 : (6 : ℚ) ≤ pH <;> by_cases h3 : pH ≤ 15 / 2 <;> simp [h1, h2, h3]

/-- On a moisture of the high band the decision is inactive; the previous value is unused. -/
theorem decidirIrrigacao_faixa_alta (n : ℤ) (pH : ℚ) (p : Bool) (hn : 71 ≤ n ∧ n ≤ 84) :
    decidirIrrigacao (n : ℚ) pH p = false := by
  have h1 : ¬ (n : ℚ) < 30 := by
    have : (30 : ℚ) ≤ (n : ℚ) := by exact_mod_cast (by omega : (30 : ℤ) ≤ n)
    linarith
  have h2 : (n : ℚ) > 70 := by exact_mod_cast (by omega : (70 : ℤ) < n)
  simp [decidirIrrigacao, LIMITE_UMIDADE_MIN, LIMITE_UMIDADE_MAX, LIMITE_PH_MIN,
    LIMITE_PH_MAX, h1, h2]

/-- C17: when `umidade_solo` is an integer of one of the simulator's bands (15..28 or 71..84),
for every pH the state left by `atualizarIrrigacao` is the same for both previous actuator
states, with `irrigacaoAtiva` true exactly when the moisture is in 15..28 and
6.0 ≤ pH ≤ 7.5: the hold branch is never taken. -/
theorem decisao_sob_simulacao (s : Estado) (n : ℤ) (hs : s.umidade_solo = (n : ℚ))
    (hn : (15 ≤ n ∧ n ≤ 28) ∨ (71 ≤ n ∧ n ≤ 84)) :
    (∀ p : Bool, (atualizarIrrigacao { s with irrigacaoAtiva := p }).irrigacaoAtiva
        = decide ((15 ≤ n ∧ n ≤ 28) ∧ (6 ≤ s.ph_valor ∧ s.ph_valor ≤ 15 / 2)))
    ∧ atualizarIrrigacao { s with irrigacaoAtiva := true }
        = atualizarIrrigacao { s with irrigacaoAtiva := false } := by
  have hd : ∀ p : Bool, decidirIrrigacao s.umidade_solo s.ph_valor p
      = decide ((15 ≤ n ∧ n ≤ 28) ∧ (6 ≤ s.ph_valor ∧ s.ph_valor ≤ 15 / 2)) := by
    intro p
    rw [hs]
    rcases hn with hn | hn
    · rw [decidirIrrigacao_faixa_baixa n s.ph_valor p hn]
      simp [hn]
    · rw [decidirIrrigacao_faixa_alta n s.ph_valor p hn]
      have : ¬ (15 ≤ n ∧ n ≤ 28) := by omega
      simp [this]
  refine ⟨fun p => hd p, ?_⟩
  simp only [atualizarIrrigacao, hd]

/-- Witness for C17: simulated moisture 20 (low band) with pH 6.5. -/
theorem decisao_sob_simulacao_witness :
    (∀ p : Bool, (atualizarIrrigacao
        { estadoCom 20 (13 / 2) false with irrigacaoAtiva := p }).irrigacaoAtiva
        = decide ((15 ≤ (20 : ℤ) ∧ (20 : ℤ) ≤ 28)
            ∧ (6 ≤ (estadoCom 20 (13 / 2) false).ph_valor
              ∧ (estadoCom 20 (13 / 2) false).ph_valor ≤ 15 / 2)))
    ∧ atualizarIrrigacao { estadoCom 20 (13 / 2) false with irrigacaoAtiva := true }
        = atualizarIrrigacao { estadoCom 20 (13 / 2) false with irrigacaoAtiva := false } :=
  decisao_sob_simulacao (estadoCom 20 (13 / 2) false) 20
    (by simp only [estadoCom, estadoInicial]; norm_num) (Or.inl (by decide))

/-- C18: the decision is idempotent for fixed readings: applying the rule again, with the
same moisture and pH, to the state it produced gives that same state; at the level of
`atualizarIrrigacao` the whole state, outputs included, is unchanged by a second call. -/
theorem decisao_idempotente :
    (∀ (m pH : ℚ) (p : Bool),
        decidirIrrigacao m pH (decidirIrrigacao m pH p) = decidirIrrigacao m pH p)
    ∧ (∀ s : Estado, atualizarIrrigacao (atualizarIrrigacao s) = atualizarIrrigacao s) := by
  have hd : ∀ (m pH : ℚ) (p : Bool),
      decidirIrrigacao m pH (decidirIrrigacao m pH p) = decidirIrrigacao m pH p := by
    intro m pH p
    simp only [decidirIrrigacao, LIMITE_UMIDADE_MIN, LIMITE_UMIDADE_MAX, LIMITE_PH_MIN,
      LIMITE_PH_MAX]
    by_cases h1 : m < 30 <;> by_cases h2 : (6 : ℚ) ≤ pH <;>
      by_cases h3 : pH ≤ 15 / 2 <;> by_cases h4 : m > 70 <;>
      simp [h1, h2, h3, h4]
  refine ⟨hd, fun s => ?_⟩
  simp only [atualizarIrrigacao, hd]

/-! ### Binary32 rounding -/

/-- The nearest integer is the floor or the floor plus one. -/
theorem inteiroProximoPar_limites (m : ℚ) :
    ⌊m⌋ ≤ inteiroProximoPar m ∧ inteiroProximoPar m ≤ ⌊m⌋ + 1 := by
  unfold inteiroProximoPar
  dsimp only
  split_ifs <;> constructor <;> omega

/-- An integer less than a half away is the nearest integer. -/
theorem inteiroProximoPar_perto (m : ℚ) (n : ℤ) (h : |m - n| < 1 / 2) :
    inteiroProximoPar m = n := by
  rw [abs_lt] at h
  obtain ⟨h1, h2⟩ := h
  by_cases hmn : (n : ℚ) ≤ m
  · have hf : ⌊m⌋ = n := by
      rw [Int.floor_eq_iff]; constructor <;> linarith
    unfold inteiroProximoPar
    dsimp only
    rw [hf, if_pos (by linarith)]
  · have hf : ⌊m⌋ = n - 1 := by
      rw [Int.floor_eq_iff]; push_cast; constructor <;> linarith
    unfold inteiroProximoPar
    dsimp only
    rw [hf, if_neg (by push_cast; linarith), if_pos (by push_cast; linarith)]
    omega

/-- The binade of a positive value is fixed by the two powers of two around it. -/
theorem log2_eq (x : ℚ) (e : ℤ) (hx : 0 < x) (h1 : (2 : ℚ) ^ e ≤ x)
    (h2 : x < (2 : ℚ) ^ (e + 1)) : Int.log 2 x = e := by
  have a : e ≤ Int.log 2 x :=
    (Int.zpow_le_iff_le_log (b := 2) (by norm_num) hx).1 (by simpa using h1)
  have b : Int.log 2 x < e + 1 :=
    (Int.lt_zpow_iff_log_lt (b := 2) (by norm_num) hx).1 (by simpa using h2)
  omega

/-- A positive value lies in its binade. -/
theorem log2_limites (x : ℚ) (hx : 0 < x) :
    (2 : ℚ) ^ Int.log 2 x ≤ x ∧ x < (2 : ℚ) ^ (Int.log 2 x + 1) := by
  have a := Int.zpow_log_le_self (b := 2) (r := x) (by norm_num) hx
  have b := Int.lt_zpow_succ_log_self (b := 2) (by norm_num) x
  exact ⟨by simpa using a, by simpa using b⟩

/-- Rounding of a positive value, unfolded. -/
theorem arredondarBin_pos (p : ℕ) (x : ℚ) (hx : 0 < x) :
    arredondarBin p x
      = inteiroProximoPar (x / 2 ^ (Int.log 2 x - ((p : ℤ) - 1)))
          * 2 ^ (Int.log 2 x - ((p : ℤ) - 1)) := by
  unfold arredondarBin ulpBin
  rw [if_neg (ne_of_gt hx), if_pos hx, abs_of_pos hx]

/-- Evaluation of a rounding: the binade `e` and the significand `n` of the result, checked by
four inequalities. -/
theorem arredondarBin_eq (p : ℕ) (x : ℚ) (e n : ℤ) (hx : 0 < x) (h1 : (2 : ℚ) ^ e ≤ x)
    (h2 : x < (2 : ℚ) ^ (e + 1)) (h3 : (n : ℚ) - 1 / 2 < x / 2 ^ (e - ((p : ℤ) - 1)))
    (h4 : x / 2 ^ (e - ((p : ℤ) - 1)) < (n : ℚ) + 1 / 2) :
    arredondarBin p x = n * 2 ^ (e - ((p : ℤ) - 1)) := by
  rw [arredondarBin_pos p x hx, log2_eq x e hx h1 h2,
    inteiroProximoPar_perto _ n (by rw [abs_lt]; constructor <;> linarith)]

/-- The value 1400 is a binary32 value. -/
theorem f32_1400 : f32 1400 = 1400 := by
  unfold f32
  rw [arredondarBin_eq 24 1400 10 11468800 (by norm_num) (by norm_num) (by norm_num)
    (by norm_num) (by norm_num)]
  norm_num

/-- The value 14 is a binary32 value. -/
theorem f32_14 : f32 14 = 14 := by
  unfold f32
  rw [arredondarBin_eq 24 14 3 14680064 (by norm_num) (by norm_num) (by norm_num)
    (by norm_num) (by norm_num)]
  norm_num

/-- The value 14 is a binary64 value. -/
theorem f64_14 : f64 14 = 14 := by
  unfold f64
  rw [arredondarBin_eq 53 14 3 7881299347898368 (by norm_num) (by norm_num) (by norm_num)
    (by norm_num) (by norm_num)]
  norm_num

/-- Rounding keeps a non-negative value non-negative. -/
theorem arredondarBin_nonneg (p : ℕ) (x : ℚ) (hx : 0 ≤ x) : 0 ≤ arredondarBin p x := by
  rcases eq_or_lt_of_le hx with h0 | hpos
  · rw [← h0]; unfold arredondarBin; rw [if_pos rfl]
  · rw [arredondarBin_pos p x hpos]
    have hu : (0 : ℚ) < 2 ^ (Int.log 2 x - ((p : ℤ) - 1)) := zpow_pos (by norm_num) _
    have hm : 0 ≤ x / 2 ^ (Int.log 2 x - ((p : ℤ) - 1)) := div_nonneg hx hu.le
    have hf : 0 ≤ ⌊x / 2 ^ (Int.log 2 x - ((p : ℤ) - 1))⌋ := Int.floor_nonneg.2 hm
    have hn := (inteiroProximoPar_limites (x / 2 ^ (Int.log 2 x - ((p : ℤ) - 1)))).1
    have hn0 : (0 : ℚ) ≤ (inteiroProximoPar (x / 2 ^ (Int.log 2 x - ((p : ℤ) - 1))) : ℤ) := by
      exact_mod_cast le_trans hf hn
    exact mul_nonneg hn0 hu.le

/-- Rounding does not cross a representable value from below. -/
theorem arredondarBin_le (p : ℕ) (x B : ℚ) (hx : 0 < x) (hxB : x ≤ B)
    (hB : arredondarBin p B = B) : arredondarBin p x ≤ B := by
  have hBpos : 0 < B := lt_of_lt_of_le hx hxB
  have hle : Int.log 2 x ≤ Int.log 2 B := Int.log_mono_right hx hxB
  obtain ⟨_, hx2⟩ := log2_limites x hx
  obtain ⟨hB1, _⟩ := log2_limites B hBpos
  rw [arredondarBin_pos p x hx]
  have hupos : (0 : ℚ) < 2 ^ (Int.log 2 x - ((p : ℤ) - 1)) := zpow_pos (by norm_num) _
  obtain ⟨_, hn2⟩ := inteiroProximoPar_limites (x / 2 ^ (Int.log 2 x - ((p : ℤ) - 1)))
  rcases lt_or_eq_of_le hle with hlt | heq
  · have h2p : (2 : ℚ) ^ (Int.log 2 x + 1)
        = ((2 ^ p : ℤ) : ℚ) * 2 ^ (Int.log 2 x - ((p : ℤ) - 1)) := by
      push_cast
      rw [← zpow_natCast, ← zpow_add₀ (by norm_num : (2 : ℚ) ≠ 0)]
      congr 1
      ring
    have hm : x / 2 ^ (Int.log 2 x - ((p : ℤ) - 1)) < ((2 ^ p : ℤ) : ℚ) := by
      rw [div_lt_iff₀ hupos, ← h2p]
      exact hx2
    have hfl : ⌊x / 2 ^ (Int.log 2 x - ((p : ℤ) - 1))⌋ < (2 : ℤ) ^ p := Int.floor_lt.2 hm
    have hn : inteiroProximoPar (x / 2 ^ (Int.log 2 x - ((p : ℤ) - 1))) ≤ (2 : ℤ) ^ p := by
      linarith
    calc (inteiroProximoPar (x / 2 ^ (Int.log 2 x - ((p : ℤ) - 1))) : ℚ)
          * 2 ^ (Int.log 2 x - ((p : ℤ) - 1))
        ≤ ((2 ^ p : ℤ) : ℚ) * 2 ^ (Int.log 2 x - ((p : ℤ) - 1)) :=
          mul_le_mul_of_nonneg_right (by exact_mod_cast hn) hupos.le
      _ = (2 : ℚ) ^ (Int.log 2 x + 1) := h2p.symm
      _ ≤ (2 : ℚ) ^ Int.log 2 B := zpow_le_zpow_right₀ (by norm_num) (by omega)
      _ ≤ B := hB1
  · rw [arredondarBin_pos p B hBpos, ← heq] at hB
    have hmB : x / 2 ^ (Int.log 2 x - ((p : ℤ) - 1))
        ≤ (inteiroProximoPar (B / 2 ^ (Int.log 2 x - ((p : ℤ) - 1))) : ℤ) := by
      rw [div_le_iff₀ hupos, hB]
      exact hxB
    have hfl : ⌊x / 2 ^ (Int.log 2 x - ((p : ℤ) - 1))⌋
        ≤ inteiroProximoPar (B / 2 ^ (Int.log 2 x - ((p : ℤ) - 1))) := by
      have := Int.floor_le (x / 2 ^ (Int.log 2 x - ((p : ℤ) - 1)))
      exact_mod_cast le_trans this hmB
    rcases lt_or_eq_of_le hfl with hlt | heq2
    · have hn : inteiroProximoPar (x / 2 ^ (Int.log 2 x - ((p : ℤ) - 1)))
          ≤ inteiroProximoPar (B / 2 ^ (Int.log 2 x - ((p : ℤ) - 1))) := by omega
      calc (inteiroProximoPar (x / 2 ^ (Int.log 2 x - ((p : ℤ) - 1))) : ℚ)
            * 2 ^ (Int.log 2 x - ((p : ℤ) - 1))
          ≤ (inteiroProximoPar (B / 2 ^ (Int.log 2 x - ((p : ℤ) - 1))) : ℚ)
            * 2 ^ (Int.log 2 x - ((p : ℤ) - 1)) :=
            mul_le_mul_of_nonneg_right (by exact_mod_cast hn) hupos.le
        _ = B := hB
    · have hge := Int.floor_le (x / 2 ^ (Int.log 2 x - ((p : ℤ) - 1)))
      rw [heq2] at hge
      have hmeq : x / 2 ^ (Int.log 2 x - ((p : ℤ) - 1))
          = (inteiroProximoPar (B / 2 ^ (Int.log 2 x - ((p : ℤ) - 1))) : ℤ) :=
        le_antisymm hmB hge
      rw [inteiroProximoPar_perto _ (inteiroProximoPar (B / 2 ^ (Int.log 2 x - ((p : ℤ) - 1))))
        (by rw [hmeq, sub_self, abs_zero]; norm_num), hB]

/-- Rounding keeps a value between 0 and a representable bound. -/
theorem arredondarBin_entre (p : ℕ) (x B : ℚ) (h0 : 0 ≤ x) (hxB : x ≤ B)
    (hB : arredondarBin p B = B) : 0 ≤ arredondarBin p x ∧ arredondarBin p x ≤ B := by
  refine ⟨arredondarBin_nonneg p x h0, ?_⟩
  rcases eq_or_lt_of_le h0 with hz | hpos
  · rw [← hz]
    unfold arredondarBin
    rw [if_pos rfl]
    exact le_trans h0 hxB
  · exact arredondarBin_le p x B hpos hxB hB

/-! ### The simulated pH in binary32 -/

/-- Line 107 on a clamped value: the product by 100 stays in [0, 1400], the rounded integer in
0..1400, and the two roundings of the quotient stay in [0, 14]. -/
theorem linha107_em_0_14 (c : ℚ) (hc : 0 ≤ c ∧ c ≤ 14) :
    (0 ≤ arduinoRound (f32 (c * 100)) ∧ arduinoRound (f32 (c * 100)) ≤ 1400)
      ∧ 0 ≤ f32 (f64 ((arduinoRound (f32 (c * 100)) : ℚ) / 100))
      ∧ f32 (f64 ((arduinoRound (f32 (c * 100)) : ℚ) / 100)) ≤ 14 := by
  obtain ⟨hc0, hc14⟩ := hc
  obtain ⟨hy0, hy1⟩ : 0 ≤ f32 (c * 100) ∧ f32 (c * 100) ≤ 1400 :=
    arredondarBin_entre 24 (c * 100) 1400 (by linarith) (by linarith) f32_1400
  obtain ⟨hk0, hk1⟩ := arduinoRound_entre (f32 (c * 100)) 0 1400 hy0
    (by push_cast; exact hy0) (by push_cast; exact hy1)
  have hq0 : (0 : ℚ) ≤ (arduinoRound (f32 (c * 100)) : ℚ) / 100 := by
    have : (0 : ℚ) ≤ (arduinoRound (f32 (c * 100)) : ℚ) := by exact_mod_cast hk0
    linarith
  have hq1 : (arduinoRound (f32 (c * 100)) : ℚ) / 100 ≤ 14 := by
    have : (arduinoRound (f32 (c * 100)) : ℚ) ≤ 1400 := by exact_mod_cast hk1
    linarith
  obtain ⟨hd0, hd1⟩ : 0 ≤ f64 ((arduinoRound (f32 (c * 100)) : ℚ) / 100)
      ∧ f64 ((arduinoRound (f32 (c * 100)) : ℚ) / 100) ≤ 14 :=
    arredondarBin_entre 53 _ 14 hq0 hq1 f64_14
  exact ⟨⟨hk0, hk1⟩, arredondarBin_entre 24 _ 14 hd0 hd1 f32_14⟩

/-- C11 (amended): for every elapsed time and every function taken for `sin`, `simularPH`
as computed in binary32 returns a value in [0, 14] that is the rounding, to `double` and then
to `float`, of `k / 100` for an integer `k` in 0..1400, namely the `round` of the `float`
product `100 * clamp(raw, 0, 14)` of line 107.  The range holds for lines 104-107 applied to
any value stored by line 101. -/
theorem simularPH_binary32_em_0_14 (seno : ℚ → ℚ) (s : Estado) (t : Nat) :
    (0 ≤ simularPH_binary32 seno s t ∧ simularPH_binary32 seno s t ≤ 14)
      ∧ (∃ k : ℤ, (0 ≤ k ∧ k ≤ 1400)
          ∧ k = arduinoRound (f32 (constrain (f32 (ph_base + f32 (ph_amplitude
              * seno (f32 (f32 ((subU32 (millis t) s.inicio_simulacao : Nat) : ℚ)
                * f32 ph_frequencia))))) 0 14 * 100))
          ∧ simularPH_binary32 seno s t = f32 (f64 ((k : ℚ) / 100)))
      ∧ (∀ raw : ℚ,
          0 ≤ f32 (f64 ((arduinoRound (f32 (constrain raw 0 14 * 100)) : ℚ) / 100))
            ∧ f32 (f64 ((arduinoRound (f32 (constrain raw 0 14 * 100)) : ℚ) / 100)) ≤ 14) := by
  obtain ⟨hk, h0, h14⟩ := linha107_em_0_14 _ (constrain_limites (f32 (ph_base + f32 (ph_amplitude
    * seno (f32 (f32 ((subU32 (millis t) s.inicio_simulacao : Nat) : ℚ)
      * f32 ph_frequencia))))))
  exact ⟨⟨h0, h14⟩, ⟨_, hk, rfl, rfl⟩,
    fun raw => (linha107_em_0_14 _ (constrain_limites raw)).2⟩

/-- The binary32 computation at elapsed time 19986 when `sin` returns the binary32 value
15219331 / 2^24 (0.90714282): line 101 stores 10.17500019, the `float` product by 100 is
1017.5, `round` gives 1018, and the value returned is the binary32 value next to 10.18. -/
theorem simularPH_binary32_em_19986 :
    simularPH_binary32 (fun _ => 15219331 / 16777216) estadoInicial 19986
      = 1334313 / 131072 := by
  have ha : f32 (7 / 2 * (15219331 / 16777216)) = 13316915 / 4194304 := by
    unfold f32
    rw [arredondarBin_eq 24 _ 1 13316915 (by norm_num) (by norm_num) (by norm_num)
      (by norm_num) (by norm_num)]
    norm_num
  have hx : f32 (7 + 13316915 / 4194304) = 10669261 / 1048576 := by
    unfold f32
    rw [arredondarBin_eq 24 _ 3 10669261 (by norm_num) (by norm_num) (by norm_num)
      (by norm_num) (by norm_num)]
    norm_num
  have hc : constrain (10669261 / 1048576) 0 14 = 10669261 / 1048576 := by
    unfold constrain
    rw [if_neg (by norm_num), if_neg (by norm_num)]
  have hy : f32 (10669261 / 1048576 * 100) = 2035 / 2 := by
    unfold f32
    rw [arredondarBin_eq 24 _ 9 16670720 (by norm_num) (by norm_num) (by norm_num)
      (by norm_num) (by norm_num)]
    norm_num
  have hk : arduinoRound (2035 / 2) = 1018 := by
    unfold arduinoRound
    rw [if_pos (by norm_num), Int.floor_eq_iff]
    constructor <;> norm_num
  have hd : f64 (((1018 : ℤ) : ℚ) / 100) = 1432707631457239 / 140737488355328 := by
    unfold f64
    rw [arredondarBin_eq 53 _ 3 5730830525828956 (by norm_num) (by norm_num) (by norm_num)
      (by norm_num) (by norm_num)]
    norm_num
  have hr : f32 (1432707631457239 / 140737488355328) = 1334313 / 131072 := by
    unfold f32
    rw [arredondarBin_eq 24 _ 3 10674504 (by norm_num) (by norm_num) (by norm_num)
      (by norm_num) (by norm_num)]
    norm_num
  simp only [simularPH_binary32, ph_base, ph_amplitude]
  rw [ha, hx, hc, hy, hk, hd, hr]

/-- The exact-arithmetic formula of the specification at the same input is 10.17. -/
theorem phReferencia_em_19986 :
    phReferencia (fun _ => 15219331 / 16777216)
        (subU32 (millis 19986) estadoInicial.inicio_simulacao) = 1017 / 100 := by
  have hq : (7 : ℚ) + 7 / 2 * (15219331 / 16777216) = 341416341 / 33554432 := by norm_num
  have hr : round (100 * (341416341 / 33554432 : ℚ)) = 1017 := by
    rw [round_eq, Int.floor_eq_iff]
    constructor <;> norm_num
  simp only [phReferencia]
  rw [hq, min_eq_right (by norm_num), max_eq_right (by norm_num), hr]
  norm_num

/-- Counterexample to C11: at elapsed time 19986, with 0.90714282 (a binary32 value in
[-1, 1]) returned by `sin`, the value `simularPH` returns is 1334313 / 2^17 (printed 10.18).
It is not a multiple of 0.01, and it is not the value 10.17 of
`round(100 * clamp(7.0 + 3.5 * sin(0.001 * t), 0, 14)) / 100`. -/
theorem simularPH_binary32_nao_centesimal :
    (-1 ≤ (15219331 / 16777216 : ℚ) ∧ (15219331 / 16777216 : ℚ) ≤ 1)
      ∧ simularPH_binary32 (fun _ => 15219331 / 16777216) estadoInicial 19986
          = 1334313 / 131072
      ∧ (¬ ∃ k : ℤ, simularPH_binary32 (fun _ => 15219331 / 16777216) estadoInicial 19986
          = (k : ℚ) / 100)
      ∧ phReferencia (fun _ => 15219331 / 16777216)
          (subU32 (millis 19986) estadoInicial.inicio_simulacao) = 1017 / 100
      ∧ simularPH_binary32 (fun _ => 15219331 / 16777216) estadoInicial 19986
          ≠ phReferencia (fun _ => 15219331 / 16777216)
              (subU32 (millis 19986) estadoInicial.inicio_simulacao) := by
  refine ⟨by norm_num, simularPH_binary32_em_19986, ?_, phReferencia_em_19986, ?_⟩
  · rw [simularPH_binary32_em_19986]
    rintro ⟨k, hk⟩
    have h1 : (1334313 : ℚ) * 100 = (k : ℚ) * 131072 := by
      field_simp at hk
      linarith
    have h2 : (1334313 : ℤ) * 100 = k * 131072 := by exact_mod_cast h1
    omega
  · rw [simularPH_binary32_em_19986, phReferencia_em_19986]
    norm_num

end FarmTech
